import Mathlib

/-!
Formal model of the StudioZero video-generation pipeline
(`src/pipeline.py`, `src/renderer.py`, `src/subtitles.py`, `src/gemini_tts.py`).

Seconds are modelled as exact rationals; fallible operations return `Except`;
the external collaborators (the TTS API, stock-footage search, Whisper, TMDB,
the ffmpeg binary and the filesystem) are oracles supplied as explicit
parameters, so every definition is executable.
-/

namespace StudioZero

/-- Truncation toward zero: the semantics of Python `int()` on a number. -/
def pyInt (q : ℚ) : Int := if 0 ≤ q then ⌊q⌋ else -⌊-q⌋

/-- A word-level timestamp dictionary `\x7b'word', 'start', 'end'\x7d` in seconds.
The field `stop` embeds the Python key `'end'` (a Lean keyword). -/
structure Word where
  word : String
  start : ℚ
  stop : ℚ
deriving Repr, DecidableEq

/-- A Whisper segment dictionary `\x7b'text', 'start', 'end', 'words'\x7d`. -/
structure Segment where
  text : String
  start : ℚ
  stop : ℚ
  words : List Word
deriving Repr, DecidableEq

/-- Python `s.strip()` (no argument): remove leading and trailing whitespace.
Python strips Unicode whitespace; `Char.isWhitespace` matches it on ASCII. -/
def pyStripWs (s : String) : String :=
  String.mk (((s.toList.dropWhile Char.isWhitespace).reverse.dropWhile
    Char.isWhitespace).reverse)

/-- Python `s.lower()` (ASCII case folding). -/
def pyToLower (s : String) : String := String.mk (s.toList.map Char.toLower)

/-- Replace every occurrence of `needle` in `hay` (Python `str.replace`; the
empty-needle edge case is never exercised by this code base). -/
def replaceList (needle repl : List Char) : List Char → List Char
  | [] => []
  | c :: rest =>
    if needle ≠ [] ∧ needle.isPrefixOf (c :: rest) then
      repl ++ replaceList needle repl ((c :: rest).drop needle.length)
    else c :: replaceList needle repl rest
termination_by l => l.length
decreasing_by
  · rename_i hcond
    have hn : needle.length ≠ 0 := by
      simpa [List.length_eq_zero] using hcond.1
    simp only [List.length_drop, List.length_cons]
    omega
  · simp

/-- Python `s.replace(needle, repl)`. -/
def pyReplace (s needle repl : String) : String :=
  String.mk (replaceList needle.toList repl.toList s.toList)

/-! ### Subtitle Synthesizer (`src/subtitles.py`) -/

/-- The character class `string.punctuation` of the Python standard library. -/
def pythonPunctuation : List Char :=
  "!\"#$%&\x27()*+,-./:;<=>?@[\\]^_\x60\x7b|\x7d~".toList

/-- Python `s.strip(chars)`: remove leading and trailing characters of the class. -/
def stripChars (cs : List Char) (s : String) : String :=
  String.mk (((s.toList.dropWhile (· ∈ cs)).reverse.dropWhile (· ∈ cs)).reverse)

/-- One ASS subtitle event (`pysubs2.SSAEvent`): times in milliseconds. -/
structure SSAEvent where
  start : Int
  stop : Int
  text : String
  style : String
deriving Repr, DecidableEq

/-- The visual style record built by `_create_hormozi_style` (`subtitles.py` lines 94-132). -/
structure SSAStyle where
  fontname : String
  fontsize : Nat
  bold : Bool
  outline : Nat
  shadow : Nat
  alignment : Nat
  borderstyle : Nat
deriving Repr, DecidableEq

/-- The single style definition added by `_create_hormozi_style`. -/
def hormoziStyle : SSAStyle :=
  { fontname := "Arial Black", fontsize := 80, bold := true,
    outline := 4, shadow := 2, alignment := 5, borderstyle := 1 }

/-- The generated subtitle document: a style table and the ordered event list. -/
structure SubtitleFile where
  styles : List (String × SSAStyle)
  events : List SSAEvent
deriving Repr, DecidableEq

/-- `_extract_words` (`subtitles.py` lines 135-169): flatten the segments into
words, falling back to the whole segment text when a segment has no words, and
dropping whitespace-only words. -/
def extractWords (whisper_segments : List Segment) : List Word :=
  whisper_segments.flatMap fun segment =>
    if segment.words.isEmpty then
      let text := pyStripWs segment.text
      if text ≠ "" then [{ word := text, start := segment.start, stop := segment.stop }]
      else []
    else
      segment.words.filterMap fun word_info =>
        let word_text := pyStripWs word_info.word
        if word_text ≠ "" then some { word_info with word := word_text } else none

/-- The grouping `[all_words[i:i+n] for i in range(0, len(all_words), n)]`
(`subtitles.py` lines 77-80). The `n = 0` case would raise in Python and is
never exercised (callers pass `words_per_line ≥ 1`). -/
def chunkWords (n : Nat) (l : List Word) : List (List Word) :=
  match l, n with
  | [], _ => []
  | _ :: _, 0 => []
  | w :: ws, m + 1 => (w :: ws).take (m + 1) :: chunkWords (m + 1) (ws.drop m)
termination_by l.length
decreasing_by
  simp only [List.length_drop, List.length_cons]
  omega

/-- `_create_karaoke_events` (`subtitles.py` lines 172-214): one event per word,
millisecond times, a 100 ms minimum display duration, lowercased text stripped
of punctuation placed at a fixed screen position, all sharing one style. -/
def createKaraokeEvents (word_group : List Word) (style_name : String) : List SSAEvent :=
  word_group.map fun word_info =>
    let start_ms := pyInt (word_info.start * 1000)
    let end_ms := pyInt (word_info.stop * 1000)
    let end_ms := if end_ms - start_ms < 100 then start_ms + 100 else end_ms
    let clean_word := stripChars pythonPunctuation (pyToLower word_info.word)
    { start := start_ms, stop := end_ms,
      text := "\x7b\\pos(960,540)\x7d" ++ clean_word,
      style := style_name }

/-- `generate_karaoke_subtitles` (`subtitles.py` lines 25-91): create the
Hormozi style, extract all words, raise `ValueError` when none exist, else
group and emit the karaoke events. -/
def generateKaraokeSubtitles (whisper_segments : List Segment)
    (words_per_line : Nat) : Except String SubtitleFile :=
  let style_name := "Hormozi"
  let all_words := extractWords whisper_segments
  if all_words.isEmpty then
    .error "No words found in whisper segments"
  else
    .ok { styles := [(style_name, hormoziStyle)],
          events := (chunkWords words_per_line all_words).flatMap
            fun group => createKaraokeEvents group style_name }

/-! ### TTS duration contract (`src/gemini_tts.py`) -/

/-- The output-extension fix-up of `generate_audio` (`gemini_tts.py` lines 223-225):
Python `output_path.rsplit('.', 1)[0] + '.wav'`. -/
def ensureWavExtension (p : String) : String :=
  if p.toLower.endsWith ".wav" then p
  else if p.contains '.' then
    String.intercalate "." ((p.splitOn ".").dropLast) ++ ".wav"
  else p ++ ".wav"

/-- `generate_audio` (`gemini_tts.py` lines 193-283), success path. The Gemini
API call is external; `audio_data_len` is the byte length of the PCM payload it
returned. Empty or whitespace-only text raises `ValueError`; otherwise the
duration is computed for 24 kHz 16-bit mono and floored at 0.1 s:
`return output_path, max(0.1, duration_seconds)`. -/
def generate_audio (text : String) (output_path : String)
    (audio_data_len : Nat) : Except String (String × ℚ) :=
  if pyStripWs text = "" then .error "Text cannot be empty"
  else
    let output_path := ensureWavExtension output_path
    let duration_seconds : ℚ := (audio_data_len : ℚ) / (24000 * 2 * 1)
    .ok (output_path, max (1/10) duration_seconds)

/-! ### Renderer (`src/renderer.py`) -/

/-- One token of an ffmpeg argument vector. Values the Python code stringifies
with `str(duration)` keep their exact value via the `dur` constructor. -/
inductive Tok where
  | str (s : String)
  | dur (q : ℚ)
deriving Repr, DecidableEq

/-- `SILENT_POSTER_DURATION = 1.0` (`renderer.py` line 32). -/
def SILENT_POSTER_DURATION : ℚ := 1

/-- Boolean substring test on character lists. -/
def listInfix (needle : List Char) : List Char → Bool
  | [] => needle.isEmpty
  | c :: rest => needle.isPrefixOf (c :: rest) || listInfix needle rest

/-- Whether `needle` occurs inside `hay`. -/
def strContainsSub (hay needle : String) : Bool := listInfix needle.toList hay.toList

/-- Whether an ffmpeg command carries any looping directive (`-loop` input
option, `loop=` or `aloop=` filter, `-stream_loop`). -/
def cmdHasLoopDirective (cmd : List Tok) : Bool :=
  cmd.any fun t =>
    match t with
    | .str s => strContainsSub s "loop"
    | .dur _ => false

/-- The `-t` output-duration limit of a command. `Tok.dur` is used exactly for
the stringified duration that follows `-t` in the commands this renderer
builds, so the first `dur` token is that limit. -/
def cmdTrimLimit (cmd : List Tok) : Option ℚ :=
  cmd.findSome? fun t =>
    match t with
    | .dur q => some q
    | .str _ => none

/-- Model of the external ffmpeg process's output duration for the commands
this renderer builds: without a looping directive the encoder consumes at most
the source's length and `-t` caps the output, so the result is
`min source (-t)`; with a looping directive the source never runs out and the
`-t` limit alone fixes the length. -/
def ffmpegOutputDuration (cmd : List Tok) (source_duration : ℚ) : ℚ :=
  match cmdTrimLimit cmd with
  | none => source_duration
  | some t => if cmdHasLoopDirective cmd then t else min source_duration t

/-- The command built by `VideoRenderer._normalize_video`
(`renderer.py` lines 604-620): canonical scale/crop/fps filter, H.264,
audio stripped, and `-t target_duration` appended when a target is given.
No looping option of any kind is emitted. -/
def normalizeVideoCmd (input_path output_path : String)
    (target_duration : Option ℚ) : List Tok :=
  [Tok.str "ffmpeg", Tok.str "-y",
   Tok.str "-i", Tok.str input_path,
   Tok.str "-vf",
   Tok.str "scale=1080:1920:force_original_aspect_ratio=increase,crop=1080:1920,setsar=1,fps=30",
   Tok.str "-c:v", Tok.str "libx264",
   Tok.str "-preset", Tok.str "fast",
   Tok.str "-crf", Tok.str "23",
   Tok.str "-pix_fmt", Tok.str "yuv420p",
   Tok.str "-an",
   Tok.str "-r", Tok.str "30"]
  ++ (match target_duration with
      | some t => [Tok.str "-t", Tok.dur t]
      | none => [])
  ++ [Tok.str output_path]

/-- The command built by `VideoRenderer._create_video_from_image`
(`renderer.py` lines 112-173): the still image is looped (`-loop 1` plus the
`loop=loop=-1:size=1:start=0` filter), optionally given the Ken-Burns
`zoompan` slow zoom, and hard-trimmed with `-t duration`. -/
def createVideoFromImageCmd (image_path output_path : String) (duration : ℚ)
    (add_ken_burns : Bool) : List Tok :=
  let total_frames := pyInt (duration * 30)
  let video_filter :=
    if add_ken_burns then
      "loop=loop=-1:size=1:start=0," ++
      "scale=1188:2112:force_original_aspect_ratio=increase," ++
      "crop=1080:1920," ++
      "zoompan=z=\x271+0.05*on/" ++ toString total_frames ++
      "\x27:x=\x27iw/2-(iw/zoom/2)\x27:y=\x27ih/2-(ih/zoom/2)\x27:d=" ++
      toString total_frames ++ ":s=1080x1920:fps=30," ++
      "setsar=1"
    else
      "loop=loop=-1:size=1:start=0," ++
      "scale=1080:1920:force_original_aspect_ratio=increase," ++
      "crop=1080:1920," ++
      "setsar=1,fps=30"
  [Tok.str "ffmpeg", Tok.str "-y",
   Tok.str "-loop", Tok.str "1",
   Tok.str "-i", Tok.str image_path,
   Tok.str "-vf", Tok.str video_filter,
   Tok.str "-c:v", Tok.str "libx264",
   Tok.str "-preset", Tok.str "fast",
   Tok.str "-crf", Tok.str "23",
   Tok.str "-pix_fmt", Tok.str "yuv420p",
   Tok.str "-t", Tok.dur duration,
   Tok.str "-an",
   Tok.str output_path]

/-- The reconciliation decision of `render_from_scenes`
(`renderer.py` lines 549-564). -/
structure DurationDecision where
  total_duration : ℚ
  mismatch_warning : Bool
deriving Repr, DecidableEq

/-- Total-duration policy (`renderer.py` lines 549-564): with a silent poster
tail the video track is authoritative; otherwise the voice track is, and a
difference beyond 1 second only sets the warning flag — the render continues
with the chosen duration either way. -/
def decideTotalDuration (has_silent_segment : Bool)
    (video_duration voice_duration : ℚ) : DurationDecision :=
  if has_silent_segment then
    { total_duration := video_duration, mismatch_warning := false }
  else
    { total_duration := voice_duration,
      mismatch_warning := decide (1 < |video_duration - voice_duration|) }

/-- `SceneAssets` (`pipeline.py` lines 58-70). `video_metadata` is modelled as
an association list. -/
structure SceneAssets where
  index : Nat
  narration : String
  visual_queries : List String
  audio_path : String
  audio_duration : ℚ
  video_path : String
  video_metadata : List (String × String)
  word_timestamps : Option (List Word) := none
  poster_path : Option String := none
  is_ending_scene : Bool := false
deriving Repr, DecidableEq

/-- One invocation of `_create_video_from_image` recorded by the render plan. -/
structure ImageVideoCall where
  image_path : String
  output_path : String
  duration : ℚ
  add_ken_burns : Bool
deriving Repr, DecidableEq

/-- The per-scene loop of `render_from_scenes` (`renderer.py` lines 479-505),
driven by the filesystem oracle `ex` and the media-duration oracle `mediaDur`
(the probed on-disk length of a source file). Returns, in scene order: the
`_create_video_from_image` calls made, the video concat entries paired with
their modelled durations, the audio concat entries, the collected
`audio_durations`, and the ending scene's poster path when one was seen
(the last such assignment wins, as in the source). -/
def renderSceneLoop (ex : String → Bool) (mediaDur : String → ℚ) (tmp : String) :
    List SceneAssets → Nat →
    List ImageVideoCall × List (String × ℚ) × List String × List ℚ × Option String
  | [], _ => ([], [], [], [], none)
  | scene :: restScenes, i =>
    let (calls, ventries, aentries, adurs, restEnd) :=
      renderSceneLoop ex mediaDur tmp restScenes (i + 1)
    match scene.poster_path with
    | some p =>
      if p ≠ "" && ex p then
        let poster_video_path := tmp ++ "/poster_video_" ++ toString i ++ ".mp4"
        let call : ImageVideoCall :=
          { image_path := p, output_path := poster_video_path,
            duration := scene.audio_duration, add_ken_burns := true }
        let vdur := ffmpegOutputDuration
          (createVideoFromImageCmd p poster_video_path scene.audio_duration true) (mediaDur p)
        let headEnd := if scene.is_ending_scene then some p else none
        (call :: calls, (poster_video_path, vdur) :: ventries,
         scene.audio_path :: aentries, scene.audio_duration :: adurs,
         restEnd.orElse fun _ => headEnd)
      else
        (calls, (scene.video_path, mediaDur scene.video_path) :: ventries,
         scene.audio_path :: aentries, scene.audio_duration :: adurs, restEnd)
    | none =>
      (calls, (scene.video_path, mediaDur scene.video_path) :: ventries,
       scene.audio_path :: aentries, scene.audio_duration :: adurs, restEnd)

/-- The normalization pass of `_concat_media` (`renderer.py` lines 652-711):
each concat entry is normalized with `_normalize_video`, trimmed to the
matching `target_durations` entry when the index is in range; the modelled
duration of each normalized clip follows `ffmpegOutputDuration`. -/
def normalizeDurations (tmp : String) (targets : List ℚ) :
    List (String × ℚ) → Nat → List ℚ
  | [], _ => []
  | (path, sdur) :: rest, i =>
    let target := if h : i < targets.length then some (targets.get ⟨i, h⟩) else none
    ffmpegOutputDuration
      (normalizeVideoCmd path (tmp ++ "/norm_" ++ toString i ++ ".mp4") target) sdur
      :: normalizeDurations tmp targets rest (i + 1)

/-- The observable outcome of `render_from_scenes`. -/
structure RenderResult where
  image_calls : List ImageVideoCall
  video_entries : List (String × ℚ)
  audio_entries : List String
  audio_durations : List ℚ
  silent_segment_path : Option String
  norm_durations : List ℚ
  video_duration : ℚ
  voice_duration : ℚ
  total_duration : ℚ
  mismatch_warning : Bool
deriving Repr, DecidableEq

/-- `VideoRenderer.render_from_scenes` (`renderer.py` lines 428-582): build the
concat lists (poster scenes become looped image videos, the ending scene's
poster also triggering a fixed-length static silent tail appended only to the
video track), normalize-and-trim each video entry to its scene's
`audio_duration`, concatenate (modelled as summing the clip durations), probe
both tracks and apply the total-duration policy. The final ducking/compositing
invocation consumes `total_duration` and is external. -/
def render_from_scenes (ex : String → Bool) (mediaDur : String → ℚ)
    (tmp : String) (scene_assets : List SceneAssets) : Except String RenderResult :=
  if scene_assets.isEmpty then .error "No scene assets provided for rendering"
  else
    let (image_calls, ventries, aentries, adurs, ending_poster) :=
      renderSceneLoop ex mediaDur tmp scene_assets 0
    let (image_calls, ventries, adurs, silent) :=
      match ending_poster with
      | some p =>
        if ex p then
          let sp := tmp ++ "/silent_poster_segment.mp4"
          let call : ImageVideoCall :=
            { image_path := p, output_path := sp,
              duration := SILENT_POSTER_DURATION, add_ken_burns := false }
          (image_calls ++ [call],
           ventries ++ [(sp, ffmpegOutputDuration
             (createVideoFromImageCmd p sp SILENT_POSTER_DURATION false) (mediaDur p))],
           adurs ++ [SILENT_POSTER_DURATION], some sp)
        else (image_calls, ventries, adurs, none)
      | none => (image_calls, ventries, adurs, none)
    let norms := normalizeDurations tmp adurs ventries 0
    let video_duration := norms.sum
    let voice_duration := (aentries.map mediaDur).sum
    let dec := decideTotalDuration silent.isSome video_duration voice_duration
    .ok { image_calls := image_calls, video_entries := ventries,
          audio_entries := aentries, audio_durations := adurs,
          silent_segment_path := silent, norm_durations := norms,
          video_duration := video_duration, voice_duration := voice_duration,
          total_duration := dec.total_duration,
          mismatch_warning := dec.mismatch_warning }

/-! ### Pipeline Orchestrator (`src/pipeline.py`) -/

/-- `Scene` (`narrative.py` lines 30-58). -/
structure Scene where
  scene_index : Nat
  narration : String
  visual_queries : List String
  mood : String
  tts_speed : ℚ
deriving Repr, DecidableEq

/-- `VideoScript` (`narrative.py` lines 60-80). -/
structure VideoScript where
  title : String
  genre : String
  overall_mood : String
  lang_code : String
  selected_voice_id : String
  selected_music_file : String
  scenes : List Scene
deriving Repr, DecidableEq

/-- The movie-details dictionary consumed by step 1. A missing or falsy entry
is modelled by the empty string. -/
structure MovieDetails where
  title : String
  plot : String
  year : String
  poster_path : String
  tagline : String
deriving Repr, DecidableEq

/-- One `scene_<index>` record of the cache document (`pipeline.py` lines 435-440). -/
structure SceneCacheEntry where
  audio_path : String
  audio_duration : ℚ
  video_path : String
  video_metadata : List (String × String)
deriving Repr, DecidableEq

/-- The reserved `ending_scene` record of the cache document
(`pipeline.py` lines 533-538). -/
structure EndingCacheEntry where
  audio_path : String
  audio_duration : ℚ
  poster_path : String
  narration : String
deriving Repr, DecidableEq

/-- The JSON cache document (`pipeline_cache.json`). The `scene_assets` map is
an association list keyed by scene index (the `scene_<index>` keys). -/
structure CacheData where
  movie_details : Option MovieDetails := none
  video_script : Option VideoScript := none
  scene_assets : List (Nat × SceneCacheEntry) := []
  ending_scene : Option EndingCacheEntry := none
  poster_path : Option String := none
deriving Repr, DecidableEq

/-- `cache_data['scene_assets'].get(f"scene_\x7bscene_num\x7d")`. -/
def CacheData.lookupScene (c : CacheData) (i : Nat) : Option SceneCacheEntry :=
  c.scene_assets.lookup i

/-- Dict assignment `cache_data['scene_assets'][key] = entry`: replaces a
previous record for the same index. -/
def CacheData.insertScene (c : CacheData) (i : Nat) (e : SceneCacheEntry) : CacheData :=
  { c with scene_assets := (c.scene_assets.filter fun kv => kv.1 ≠ i) ++ [(i, e)] }

/-- `PipelineStatus` (`pipeline.py` lines 73-79); the optional structured
`data` payload is not modelled. -/
structure PipelineStatus where
  step : Nat
  message : String
  is_error : Bool := false
deriving Repr, DecidableEq

def mkStatus (step : Nat) (message : String) (is_error : Bool := false) :
    PipelineStatus :=
  { step := step, message := message, is_error := is_error }

/-- The TMDB metadata record returned by `get_tmdb_metadata`. -/
structure TmdbMetadata where
  poster_path : String
  year : String
  tagline : String
deriving Repr, DecidableEq

/-- The result tuple of `_process_scene_parallel` (`pipeline.py` line 244),
without the cosmetic status messages. -/
structure SceneProcResult where
  audio_path : String
  audio_duration : ℚ
  video_path : String
  video_metadata : List (String × String)
deriving Repr, DecidableEq

/-- The external collaborators and I/O surface of one pipeline run, supplied
as oracles: the filesystem, the movie-database client, the script generator,
the per-scene TTS and stock-footage providers, the ending-template random
choice, Whisper, and the ffmpeg-backed renderer outcome. -/
structure Env where
  file_exists : String → Bool
  search_movie : Option String
  movie_details : Option MovieDetails
  tmdb_metadata : Option TmdbMetadata
  download_poster : Option String
  generate_script : Except String VideoScript
  tts : Nat → Except String (String × ℚ)
  fetch_video : Nat → Except String (String × List (String × String))
  ending_template_choice : Nat
  ending_tts : Except String (String × ℚ)
  transcribe : String → Except String (List Segment)
  check_ffmpeg : Bool
  render : Except String Unit

/-- `ENDING_TEMPLATES` (`pipeline.py` lines 37-43). -/
def ENDING_TEMPLATES : List String :=
  ["And that... was \x7btitle\x7d. Released in \x7byear\x7d.",
   "This was the story of \x7btitle\x7d, from \x7byear\x7d.",
   "\x7btitle\x7d. A \x7byear\x7d film that left its mark.",
   "That\x27s \x7btitle\x7d for you. Out since \x7byear\x7d.",
   "The movie? \x7btitle\x7d. The year? \x7byear\x7d."]

/-- `generate_ending_text` (`pipeline.py` lines 98-110); the `random.choice`
is the oracle index `choice`. -/
def generate_ending_text (choice : Nat) (movie_title release_year : String) :
    String :=
  let template := (ENDING_TEMPLATES.get? (choice % ENDING_TEMPLATES.length)).getD ""
  let year := if release_year = "" then "an unforgettable year" else release_year
  pyReplace (pyReplace template "\x7btitle\x7d" movie_title) "\x7byear\x7d" year

/-- The job-name sanitization used for the temp directory and the final output
name (`pipeline.py` lines 141 and 642). Python `isalnum` is Unicode-aware;
`Char.isAlphanum` matches it on ASCII input. -/
def sanitizeName (movie_name : String) : String :=
  pyReplace (pyStripWs (String.mk (movie_name.toList.filter fun c =>
    c.isAlphanum || c = ' ' || c = '-' || c = '_'))) " " "_"

/-- `_get_output_dir` (`pipeline.py` lines 139-144), with
`Config.TEMP_DIR = output/temp`. -/
def getOutputDir (movie_name : String) : String :=
  "output/temp/" ++ sanitizeName movie_name

/-- `_process_scene_parallel` (`pipeline.py` lines 169-244): TTS synthesis and
footage download are both awaited; if either raises, the scene processing
raises. The completion order of the two futures is nondeterministic in the
source; the TTS error is reported first here. -/
def processSceneParallel (tts_result : Except String (String × ℚ))
    (video_result : Except String (String × List (String × String))) :
    Except String SceneProcResult :=
  match tts_result, video_result with
  | .ok (ap, ad), .ok (vp, vm) =>
    .ok { audio_path := ap, audio_duration := ad, video_path := vp, video_metadata := vm }
  | .error e, _ => .error e
  | .ok _, .error e => .error e

/-- Step 1, movie-details acquisition (`pipeline.py` lines 268-305): offline
reads the cache (missing cache or missing details is fatal); online queries
the movie client (no search hit or no details is fatal). Returns the events
and, on success, the details plus the accumulated cache document. -/
def stage1Details (offline : Bool) (env : Env) (loaded_cache : Option CacheData)
    (movie_name : String) :
    List PipelineStatus × Option (MovieDetails × CacheData) :=
  if offline then
    match loaded_cache with
    | none =>
      ([mkStatus 1 ("No cached data found for \x27" ++ movie_name ++
        "\x27. Run without --offline first.") true], none)
    | some cache_data =>
      match cache_data.movie_details with
      | none => ([mkStatus 1 "No movie details in cache." true], none)
      | some md => ([mkStatus 1 "Using cached movie details"], some (md, cache_data))
  else
    let ev0 := mkStatus 1 ("Searching for movie: \x27" ++ movie_name ++ "\x27...")
    match env.search_movie with
    | none =>
      ([ev0, mkStatus 1 ("Could not find any movie matching \x27" ++ movie_name ++
        "\x27.") true], none)
    | some _ =>
      match env.movie_details with
      | none => ([ev0, mkStatus 1 "Failed to retrieve movie details." true], none)
      | some md => ([ev0], some (md, { movie_details := some md }))

/-- Step 1, TMDB metadata top-up (`pipeline.py` lines 316-334): only online
and only when the poster path or year is missing; fills the missing fields
and refreshes the cached details. -/
def stage1Tmdb (offline : Bool) (env : Env) (md : MovieDetails)
    (cache_data : CacheData) :
    List PipelineStatus × MovieDetails × CacheData :=
  if ¬offline ∧ (md.poster_path = "" ∨ md.year = "") then
    let ev0 := mkStatus 1 "Fetching additional metadata from TMDB..."
    match env.tmdb_metadata with
    | some t =>
      let md' := { md with
        poster_path := if md.poster_path = "" then t.poster_path else md.poster_path,
        year := if md.year = "" then t.year else md.year,
        tagline := if md.tagline = "" then t.tagline else md.tagline }
      ([ev0, mkStatus 1 ("TMDB metadata: year=" ++ md'.year ++ ", poster=" ++
        (if md'.poster_path ≠ "" then "yes" else "no"))],
       md', { cache_data with movie_details := some md' })
    | none => ([ev0, mkStatus 1 "Could not fetch TMDB metadata"], md, cache_data)
  else ([], md, cache_data)

/-- Step 1, poster download (`pipeline.py` lines 343-356): online with a TMDB
poster path, download it and record it in the cache; offline, reuse the cached
local path. Returns the local poster path when available. -/
def stage1Poster (offline : Bool) (env : Env) (md : MovieDetails)
    (cache_data : CacheData) :
    List PipelineStatus × Option String × CacheData :=
  if md.poster_path ≠ "" ∧ ¬offline then
    let ev0 := mkStatus 1 "Downloading movie poster..."
    match env.download_poster with
    | some p =>
      ([ev0, mkStatus 1 ("Poster downloaded: " ++ p)], some p,
       { cache_data with poster_path := some p })
    | none =>
      ([ev0, mkStatus 1 "Could not download poster (will skip ending poster scene)"],
       none, cache_data)
  else if offline then
    match cache_data.poster_path with
    | some p =>
      (if p ≠ "" ∧ env.file_exists p then [mkStatus 1 "Using cached poster"] else [],
       some p, cache_data)
    | none => ([], none, cache_data)
  else ([], none, cache_data)

/-- Step 2, the per-scene loop (`pipeline.py` lines 389-458): offline scenes
come from the cache and are dropped (with an error event) when the entry or
its files are missing; online scenes run TTS and footage fetch in parallel
and are dropped (with an error event) when either raises. Successful scenes
are recorded in the cache document and appended, in script order, to the
asset list. -/
def step2Loop (offline : Bool) (env : Env) (total : Nat) :
    List Scene → CacheData → List PipelineStatus × List SceneAssets × CacheData
  | [], cache_data => ([], [], cache_data)
  | scene :: rest, cache_data =>
    let i := scene.scene_index
    let ev0 := mkStatus 2 ("Processing scene " ++ toString (i + 1) ++ "/" ++
      toString total ++ "...")
    if offline then
      match cache_data.lookupScene i with
      | none =>
        let (evs, assets, cd) := step2Loop offline env total rest cache_data
        (ev0 :: mkStatus 2 ("No cached data for scene " ++ toString i) true :: evs,
         assets, cd)
      | some cached =>
        if env.file_exists cached.audio_path && env.file_exists cached.video_path then
          let asset : SceneAssets :=
            { index := i, narration := scene.narration,
              visual_queries := scene.visual_queries,
              audio_path := cached.audio_path,
              audio_duration := cached.audio_duration,
              video_path := cached.video_path,
              video_metadata := cached.video_metadata }
          let (evs, assets, cd) := step2Loop offline env total rest cache_data
          (ev0 :: mkStatus 2 ("Scene " ++ toString i ++ ": Using cached assets") :: evs,
           asset :: assets, cd)
        else
          let (evs, assets, cd) := step2Loop offline env total rest cache_data
          (ev0 :: mkStatus 2 ("Cached files not found for scene " ++ toString i) true
            :: evs, assets, cd)
    else
      match processSceneParallel (env.tts i) (env.fetch_video i) with
      | .error e =>
        let (evs, assets, cd) := step2Loop offline env total rest cache_data
        (ev0 :: mkStatus 2 ("Failed to process scene " ++ toString i ++ ": " ++ e) true
          :: evs, assets, cd)
      | .ok r =>
        let cache_data' := cache_data.insertScene i
          { audio_path := r.audio_path, audio_duration := r.audio_duration,
            video_path := r.video_path, video_metadata := r.video_metadata }
        let asset : SceneAssets :=
          { index := i, narration := scene.narration,
            visual_queries := scene.visual_queries,
            audio_path := r.audio_path, audio_duration := r.audio_duration,
            video_path := r.video_path, video_metadata := r.video_metadata }
        let (evs, assets, cd) := step2Loop offline env total rest cache_data'
        (ev0 :: evs, asset :: assets, cd)

/-- Step 2.5, the ending scene (`pipeline.py` lines 472-548): offline loads
the cached ending record when its files still exist; online, with a local
poster on disk, synthesizes the reveal line and appends the poster-backed
scene flagged `is_ending_scene`, recording it in the cache. All failures here
are non-fatal. -/
def stage25Ending (offline : Bool) (env : Env) (movie_title movie_year : String)
    (poster_local : Option String) (_output_dir : String)
    (_selected_voice_id _overall_mood : String)
    (assets : List SceneAssets) (cache_data : CacheData) :
    List PipelineStatus × List SceneAssets × CacheData :=
  if offline then
    match cache_data.ending_scene with
    | some ce =>
      if ce.audio_path ≠ "" ∧ env.file_exists ce.audio_path ∧
         ce.poster_path ≠ "" ∧ env.file_exists ce.poster_path then
        let ending_scene_asset : SceneAssets :=
          { index := assets.length, narration := ce.narration,
            visual_queries := ["movie poster"],
            audio_path := ce.audio_path, audio_duration := ce.audio_duration,
            video_path := "", video_metadata := [("type", "poster"), ("source", "tmdb")],
            poster_path := some ce.poster_path, is_ending_scene := true }
        ([mkStatus 2 "Loading cached ending scene...",
          mkStatus 2 ("Ending scene loaded: \"" ++ ce.narration ++ "\"")],
         assets ++ [ending_scene_asset], cache_data)
      else ([mkStatus 2 "Cached ending scene files not found"], assets, cache_data)
    | none => ([mkStatus 2 "No ending scene in cache"], assets, cache_data)
  else
    match poster_local with
    | some p =>
      if p ≠ "" ∧ env.file_exists p then
        let ending_text := generate_ending_text env.ending_template_choice
          movie_title movie_year
        let ev0 := [mkStatus 2 "Creating ending scene with movie poster...",
          mkStatus 2 ("Ending narration: \"" ++ ending_text ++ "\"")]
        match env.ending_tts with
        | .ok (ending_audio_path, ending_audio_duration) =>
          let ending_scene_asset : SceneAssets :=
            { index := assets.length, narration := ending_text,
              visual_queries := ["movie poster"],
              audio_path := ending_audio_path,
              audio_duration := ending_audio_duration,
              video_path := "", video_metadata := [("type", "poster"), ("source", "tmdb")],
              poster_path := some p, is_ending_scene := true }
          let ce : EndingCacheEntry :=
            { audio_path := ending_audio_path,
              audio_duration := ending_audio_duration,
              poster_path := p, narration := ending_text }
          (ev0 ++ [mkStatus 2 "Ending scene created with movie poster"],
           assets ++ [ending_scene_asset],
           { cache_data with ending_scene := some ce })
        | .error e =>
          (ev0 ++ [mkStatus 2 ("Failed to create ending scene: " ++ e) true],
           assets, cache_data)
      else ([mkStatus 2 "Skipping ending scene (no poster available)"], assets, cache_data)
    | none =>
      ([mkStatus 2 "Skipping ending scene (no poster available)"], assets, cache_data)

/-- Step 3, transcription and timestamp aggregation
(`pipeline.py` lines 555-602). Each scene's Whisper words and segments are
shifted by the running `cumulative_offset` and the offset then advances by the
scene's `audio_duration`. NOTE (lines 561-597): the
`cumulative_offset += asset.audio_duration` statement sits inside the `try`
after the transcription, so a failed transcription leaves both the asset's
timestamps and the offset unchanged. Returns the events, the updated assets,
the aggregated adjusted segments, and the final offset. -/
def step3Loop (env : Env) :
    List SceneAssets → ℚ →
    List PipelineStatus × List SceneAssets × List Segment × ℚ
  | [], cumulative_offset => ([], [], [], cumulative_offset)
  | asset :: rest, cumulative_offset =>
    let ev0 := mkStatus 3 ("Transcribing scene " ++ toString asset.index ++ "...")
    match env.transcribe asset.audio_path with
    | .ok segments =>
      let adjusted_words := segments.flatMap fun segment =>
        segment.words.map fun w =>
          { word := w.word, start := w.start + cumulative_offset,
            stop := w.stop + cumulative_offset }
      let adjusted_segments := segments.map fun segment =>
        { segment with
          start := segment.start + cumulative_offset,
          stop := segment.stop + cumulative_offset,
          words := segment.words.map fun w =>
            { word := w.word, start := w.start + cumulative_offset,
              stop := w.stop + cumulative_offset } }
      let asset' := { asset with word_timestamps := some adjusted_words }
      let (evs, assets, segs, off) :=
        step3Loop env rest (cumulative_offset + asset.audio_duration)
      (ev0 :: evs, asset' :: assets, adjusted_segments ++ segs, off)
    | .error e =>
      let (evs, assets, segs, off) := step3Loop env rest cumulative_offset
      (ev0 :: mkStatus 3 ("Whisper transcription failed for scene " ++
        toString asset.index ++ ": " ++ e) true :: evs,
       asset :: assets, segs, off)

/-- The terminal shape of one run of `VideoGenerationPipeline.run`
(`pipeline.py` lines 246-685): the yielded progress events, the returned
scene assets, script and final video path, and every `_save_cache` call the
run performed. -/
structure RunResult where
  events : List PipelineStatus
  scene_assets : List SceneAssets
  script : Option VideoScript
  final_video_path : Option String
  cache_saves : List CacheData
deriving Repr, DecidableEq

/-- Steps 4 and 5 (`pipeline.py` lines 607-680): subtitle generation (its
failure only clears the subtitle path), music lookup, the ffmpeg check, the
final render, and — only after a successful render of an online run — the
single `_save_cache` call. -/
def step45 (offline : Bool) (env : Env) (movie_name : String)
    (script : VideoScript) (assets : List SceneAssets)
    (all_whisper_segments : List Segment) (cache_data : CacheData) : RunResult :=
  let output_dir := getOutputDir movie_name
  let ev4a := [mkStatus 4 "Generating karaoke subtitles..."]
  let (ev4b, _subtitle_path) :=
    match generateKaraokeSubtitles all_whisper_segments 4 with
    | .ok _ =>
      ([mkStatus 4 ("Subtitles generated: " ++ output_dir ++ "/subtitles.ass")],
       some (output_dir ++ "/subtitles.ass"))
    | .error e =>
      ([mkStatus 4 ("Failed to generate subtitles: " ++ e) true], (none : Option String))
  let ev5a := [mkStatus 5 "Rendering final video..."]
  let ev5b :=
    if script.selected_music_file ≠ "" then
      if env.file_exists ("assets/music/" ++ script.selected_music_file) then
        [mkStatus 5 ("Using background music: " ++ script.selected_music_file)]
      else [mkStatus 5 ("Music file not found: " ++ script.selected_music_file)]
    else []
  let final_output_path := "output/final/" ++ sanitizeName movie_name ++ ".mp4"
  let evs := ev4a ++ ev4b ++ ev5a ++ ev5b
  if ¬env.check_ffmpeg then
    { events := evs ++ [mkStatus 5 "FFmpeg not installed." true],
      scene_assets := assets, script := some script,
      final_video_path := none, cache_saves := [] }
  else
    match env.render with
    | .error e =>
      { events := evs ++ [mkStatus 5 "Concatenating scenes and mixing audio...",
          mkStatus 5 ("Rendering failed: " ++ e) true],
        scene_assets := assets, script := some script,
        final_video_path := none, cache_saves := [] }
    | .ok _ =>
      { events := evs ++ [mkStatus 5 "Concatenating scenes and mixing audio...",
          mkStatus 5 ("Video rendered successfully: " ++ final_output_path)],
        scene_assets := assets, script := some script,
        final_video_path := some final_output_path,
        cache_saves := if ¬offline then [cache_data] else [] }

/-- Steps 2-5 of `run` (`pipeline.py` lines 384-680), from scene processing
onward: the per-scene loop, the empty-result fatal check, the ending scene,
transcription, and the final steps. `evHead` is the step-1 event prefix. -/
def runTail (offline : Bool) (env : Env) (movie_name : String)
    (md : MovieDetails) (poster_local : Option String) (script : VideoScript)
    (cache_data : CacheData) (evHead : List PipelineStatus) : RunResult :=
  let (ev6, assets, cache_data) :=
    step2Loop offline env script.scenes.length script.scenes cache_data
  if assets.isEmpty then
    { events := evHead ++ ev6 ++
        [mkStatus 2 "No scenes were processed successfully." true],
      scene_assets := assets, script := some script,
      final_video_path := none, cache_saves := [] }
  else
    let ev7 := [mkStatus 2 ("Scene processing complete: " ++
      toString assets.length ++ " scenes")]
    let (ev8, assets, cache_data) := stage25Ending offline env md.title md.year
      poster_local (getOutputDir movie_name) script.selected_voice_id
      script.overall_mood assets cache_data
    let ev9 := [mkStatus 3 "Transcribing audio with Whisper for word timestamps..."]
    let (ev10, assets, all_whisper_segments, _off) := step3Loop env assets 0
    let ev11 := [mkStatus 3 ("Transcription complete: " ++
      toString all_whisper_segments.length ++ " segments")]
    let tail := step45 offline env movie_name script assets
      all_whisper_segments cache_data
    { tail with events := evHead ++ ev6 ++ ev7 ++ ev8 ++ ev9 ++ ev10 ++
        ev11 ++ tail.events }

/-- `VideoGenerationPipeline.run` (`pipeline.py` lines 246-685), assembled
from the stage functions above in source order. Fatal exits (no cache, no
details, no plot, no script, no usable scene, no ffmpeg, failed render, or a
script-generation exception reaching the outer handler) return a `none` final
path; every exit but the last successful one performs no cache save. -/
def run (offline : Bool) (env : Env) (loaded_cache : Option CacheData)
    (movie_name : String) : RunResult :=
  let ev0 := [mkStatus 1 "Fetching movie data..."]
  let (ev1, r1) := stage1Details offline env loaded_cache movie_name
  match r1 with
  | none =>
    { events := ev0 ++ ev1, scene_assets := [], script := none,
      final_video_path := none, cache_saves := [] }
  | some (md, cache_data) =>
    if md.plot = "" then
      { events := ev0 ++ ev1 ++ [mkStatus 1 "No plot found for this movie." true],
        scene_assets := [], script := none,
        final_video_path := none, cache_saves := [] }
    else
      let (ev2, md, cache_data) := stage1Tmdb offline env md cache_data
      let evFound := [mkStatus 1 ("Found: " ++ md.title ++ " (" ++
        (if md.year ≠ "" then md.year else "Unknown") ++ ")")]
      let (ev3, poster_local, cache_data) := stage1Poster offline env md cache_data
      let ev4 := [mkStatus 1 "Generating video script with AI..."]
      let scriptStep : (List PipelineStatus) ⊕ (VideoScript × CacheData × List PipelineStatus) :=
        if offline then
          match cache_data.video_script with
          | none => .inl [mkStatus 1 "No script data in cache." true]
          | some s => .inr (s, cache_data, [mkStatus 1 "Using cached script"])
        else
          match env.generate_script with
          | .ok s => .inr (s, { cache_data with video_script := some s }, [])
          | .error e => .inl [mkStatus 0 ("Unexpected error: " ++ e) true]
      match scriptStep with
      | .inl evErr =>
        { events := ev0 ++ ev1 ++ ev2 ++ evFound ++ ev3 ++ ev4 ++ evErr,
          scene_assets := [], script := none,
          final_video_path := none, cache_saves := [] }
      | .inr (script, cache_data, ev5) =>
        runTail offline env movie_name md poster_local script cache_data
          (ev0 ++ ev1 ++ ev2 ++ evFound ++ ev3 ++ ev4 ++ ev5 ++
            [mkStatus 1 ("Script generated: " ++ toString script.scenes.length ++
              " scenes, genre=" ++ script.genre),
             mkStatus 2 "Processing scenes (parallel TTS + video download)..."])

/-! ### Derived views and concrete fixtures -/

/-- The scene-local words of a transcription result, in segment order
(`segment.get('words', [])` flattened). -/
def localWords (segments : List Segment) : List Word :=
  segments.flatMap fun s => s.words

/-- The aggregated re-based word list over the processed scenes in script
order: each scene's attached `word_timestamps`, concatenated. -/
def aggregatedWords (assets : List SceneAssets) : List Word :=
  assets.flatMap fun a => a.word_timestamps.getD []

/-- Every pair of consecutive words has a non-decreasing `start`. -/
def nondecStarts : List Word → Bool
  | [] => true
  | [_] => true
  | a :: b :: t => decide (a.start ≤ b.start) && nondecStarts (b :: t)

/-- An environment in which every external collaborator is unavailable. -/
def baseEnv : Env :=
  { file_exists := fun _ => false, search_movie := none, movie_details := none,
    tmdb_metadata := none, download_poster := none,
    generate_script := .error "unavailable",
    tts := fun _ => .error "unavailable",
    fetch_video := fun _ => .error "unavailable",
    ending_template_choice := 0,
    ending_tts := .error "unavailable",
    transcribe := fun _ => .error "unavailable",
    check_ffmpeg := false, render := .error "unavailable" }

/-- A processed scene asset with narration duration `d0` (fixture). -/
def normalScene (d0 : ℚ) : SceneAssets :=
  { index := 0, narration := "n0", visual_queries := ["q"],
    audio_path := "a0.wav", audio_duration := d0,
    video_path := "v0.mp4", video_metadata := [] }

/-- A second processed scene asset with duration `d1` (fixture). -/
def secondScene (d1 : ℚ) : SceneAssets :=
  { index := 1, narration := "n1", visual_queries := ["q"],
    audio_path := "a1.wav", audio_duration := d1,
    video_path := "v1.mp4", video_metadata := [] }

/-- A poster-backed ending scene asset with duration `d1` (fixture). -/
def endingScene (d1 : ℚ) : SceneAssets :=
  { index := 1, narration := "the reveal", visual_queries := ["movie poster"],
    audio_path := "ea.wav", audio_duration := d1,
    video_path := "", video_metadata := [("type", "poster"), ("source", "tmdb")],
    poster_path := some "poster.jpg", is_ending_scene := true }

/-- A filesystem on which exactly the poster image exists (fixture). -/
def posterFs : String → Bool := fun p => p = "poster.jpg"

/-- A media-duration probe for the fixture files: the stock clip is `s0`
seconds long and the narration files match their scenes (fixture). -/
def mediaDurFam (s0 d0 d1 : ℚ) : String → ℚ := fun p =>
  if p = "v0.mp4" then s0
  else if p = "a0.wav" then d0
  else if p = "ea.wav" then d1
  else 0

/-- An environment whose transcriber fails on scene 0's audio and returns one
word for any other file (fixture for the frozen-offset behaviour). -/
def envFailFirst : Env :=
  { baseEnv with
    transcribe := fun p =>
      if p = "a0.wav" then .error "boom"
      else .ok [⟨"hi", 1/2, 1, [⟨"hi", 1/2, 1⟩]⟩] }

/-- An environment whose transcriber succeeds on both fixture scenes with
sorted in-range words (fixture for the monotonicity witness). -/
def envBothOk : Env :=
  { baseEnv with
    transcribe := fun p =>
      if p = "a0.wav" then
        .ok [⟨"s0", 0, 4, [⟨"w1", 0, 1/2⟩, ⟨"w2", 7/2, 4⟩]⟩]
      else if p = "a1.wav" then
        .ok [⟨"s1", 0, 1, [⟨"w3", 1/10, 1⟩]⟩]
      else .error "x" }

/-- Movie details fixture. -/
def mdFix : MovieDetails :=
  { title := "T", plot := "p", year := "1999", poster_path := "", tagline := "" }

/-- Two-scene script fixture (no background music). -/
def scriptFix : VideoScript :=
  { title := "T", genre := "g", overall_mood := "neutral", lang_code := "a",
    selected_voice_id := "v", selected_music_file := "",
    scenes := [⟨0, "n0", ["q"], "m", 1⟩, ⟨1, "n1", ["q"], "m", 1⟩] }

/-- Cached record for scene 0 only (fixture: scene 1's entry is missing). -/
def cacheMissingScene1 : CacheData :=
  { movie_details := some mdFix, video_script := some scriptFix,
    scene_assets := [(0, ⟨"a0.wav", 4, "v0.mp4", []⟩)] }

/-- Offline environment fixture: all cached files exist, transcription returns
no segments, ffmpeg is present and the final render succeeds. -/
def envOffline : Env :=
  { baseEnv with
    file_exists := fun _ => true,
    transcribe := fun _ => .ok [], check_ffmpeg := true, render := .ok () }

/-- A segment whose word's raw end time precedes its start time (fixture). -/
def invertedWordSeg : List Segment := [⟨"", 0, 0, [⟨"Hi!", 1/2, 3/10⟩]⟩]

/-- The subtitle document generated for `invertedWordSeg` (fixture). -/
def invertedWordSubs : SubtitleFile :=
  ⟨[("Hormozi", hormoziStyle)], [⟨500, 600, "\x7b\\pos(960,540)\x7dhi", "Hormozi"⟩]⟩

/-- Online environment fixture in which scene 0's TTS raises and scene 1
succeeds (the run later stops at the ffmpeg check). -/
def envTtsFail : Env :=
  { baseEnv with
    search_movie := some "m", movie_details := some mdFix,
    generate_script := .ok scriptFix,
    tts := fun i => if i = 0 then .error "tts down" else .ok ("a1.wav", 3),
    fetch_video := fun i => .ok ("v" ++ toString i ++ ".mp4", []) }

/-! ## Theorems -/

/-- Each karaoke event satisfies the 100 ms display floor and carries the
given style name. -/
theorem mem_createKaraokeEvents {g : List Word} {s : String} {e : SSAEvent}
    (h : e ∈ createKaraokeEvents g s) :
    100 ≤ e.stop - e.start ∧ e.style = s := by
  simp only [createKaraokeEvents, List.mem_map] at h
  obtain ⟨w, -, rfl⟩ := h
  refine ⟨?_, rfl⟩
  by_cases hlt : pyInt (w.stop * 1000) - pyInt (w.start * 1000) < 100 <;>
    simp only [hlt, if_true, if_false, reduceIte] <;> omega

/-- C6: every subtitle event emitted by the Subtitle Synthesizer satisfies
`end_ms - start_ms ≥ 100` and references the single shared "Hormozi" style,
for every input word list, including words whose raw end time is at or before
their start time. -/
theorem subtitle_events_min_duration_single_style
    (segs : List Segment) (n : Nat) (subs : SubtitleFile)
    (h : generateKaraokeSubtitles segs n = .ok subs) :
    (∀ e ∈ subs.events, 100 ≤ e.stop - e.start ∧ e.style = "Hormozi") ∧
    subs.styles = [("Hormozi", hormoziStyle)] := by
  simp only [generateKaraokeSubtitles] at h
  split at h
  · exact absurd h (by simp)
  · cases h
    refine ⟨?_, rfl⟩
    intro e he
    simp only [List.mem_flatMap] at he
    obtain ⟨g, -, hg⟩ := he
    exact mem_createKaraokeEvents hg

/-- Witness for `subtitle_events_min_duration_single_style` on a concrete word
whose raw end time precedes its start time. -/
theorem subtitle_events_min_duration_single_style_witness :
    (∀ e ∈ invertedWordSubs.events, 100 ≤ e.stop - e.start ∧ e.style = "Hormozi") ∧
    invertedWordSubs.styles = [("Hormozi", hormoziStyle)] :=
  subtitle_events_min_duration_single_style invertedWordSeg 1 invertedWordSubs
    (by with_unfolding_all rfl)

/-- C10: for every non-empty input text for which TTS synthesis succeeds,
`generate_audio` returns a duration floored by `max(0.1, computed)`, hence at
least 0.1 s and strictly positive. -/
theorem generate_audio_duration_floor (text path : String) (n : Nat)
    (h : pyStripWs text ≠ "") :
    ∃ p d, generate_audio text path n = .ok (p, d) ∧ (1/10 : ℚ) ≤ d ∧ 0 < d := by
  refine ⟨ensureWavExtension path, max (1/10) ((n : ℚ) / (24000 * 2 * 1)), ?_,
    le_max_left _ _, lt_of_lt_of_le (by norm_num) (le_max_left _ _)⟩
  simp [generate_audio, h]

/-- Witness for `generate_audio_duration_floor` at a concrete input. -/
theorem generate_audio_duration_floor_witness :
    ∃ p d, generate_audio "hello" "out.wav" 0 = .ok (p, d) ∧ (1/10 : ℚ) ≤ d ∧ 0 < d :=
  generate_audio_duration_floor "hello" "out.wav" 0 (by with_unfolding_all decide)

/-- C1 (code-bug evidence): `_normalize_video` emits no looping directive —
only a hard `-t` trim — so for a source clip shorter than the narration
(2 s source, 4 s target) the normalized output stays 2 s, off the target by
far more than one frame at 30 fps, contradicting the claim and the function's
own docstring ("trim/loop video to this duration"). -/
theorem normalize_short_source_not_looped :
    cmdHasLoopDirective (normalizeVideoCmd "scene_0_video.mp4" "norm_0.mp4" (some 4)) = false ∧
    ffmpegOutputDuration (normalizeVideoCmd "scene_0_video.mp4" "norm_0.mp4" (some 4)) 2 = 2 ∧
    (2 : ℚ) ≠ 4 ∧ ¬ |(2 : ℚ) - 4| ≤ 1/30 := by
  refine ⟨by with_unfolding_all decide, by with_unfolding_all decide, by norm_num,
    by with_unfolding_all decide⟩

/-- C2 (code-bug evidence): on two scenes where scene 0's transcription raises
(scene 0 lasting 4 s), the step-3 loop leaves the cumulative offset at 0:
scene 1's word lands at its scene-local 0.5 s instead of 0.5 + 4.0 s, the
final offset is 3 (only scene 1's duration), scene 0's `word_timestamps`
remains unset, and an error event is emitted. -/
theorem transcription_failure_freezes_offset :
    (step3Loop envFailFirst [normalScene 4, secondScene 3] 0).2.1.map
        SceneAssets.word_timestamps = [none, some [⟨"hi", 1/2, 1⟩]] ∧
    (step3Loop envFailFirst [normalScene 4, secondScene 3] 0).2.2.2 = 3 ∧
    mkStatus 3 "Whisper transcription failed for scene 0: boom" true
      ∈ (step3Loop envFailFirst [normalScene 4, secondScene 3] 0).1 ∧
    (1/2 : ℚ) ≠ 1/2 + (normalScene 4).audio_duration := by
  refine ⟨by with_unfolding_all decide, by with_unfolding_all decide,
    by with_unfolding_all decide, by norm_num [normalScene]⟩

/-- The reconciliation record satisfies the stated policy. -/
theorem decideTotalDuration_spec (s : Bool) (vd cd : ℚ) :
    (decideTotalDuration s vd cd).total_duration = (if s then vd else cd) ∧
    ((decideTotalDuration s vd cd).mismatch_warning = true ↔
      s = false ∧ 1 < |vd - cd|) := by
  cases s <;> simp [decideTotalDuration]

/-- C5: the final total duration equals the video track's duration when a
silent poster tail was appended and the narration track's duration otherwise;
a video-vs-narration mismatch beyond 1 second only raises the warning flag,
and the render still returns a result (it is never aborted by the mismatch). -/
theorem total_duration_policy (ex : String → Bool) (mediaDur : String → ℚ)
    (tmp : String) (scenes : List SceneAssets) (h : scenes ≠ []) :
    ∃ r, render_from_scenes ex mediaDur tmp scenes = .ok r ∧
      r.total_duration =
        (if r.silent_segment_path.isSome then r.video_duration else r.voice_duration) ∧
      (r.mismatch_warning = true ↔
        r.silent_segment_path.isSome = false ∧
          1 < |r.video_duration - r.voice_duration|) := by
  unfold render_from_scenes
  rw [if_neg (by simpa using h)]
  refine ⟨_, rfl, ?_, ?_⟩ <;> dsimp only
  · exact (decideTotalDuration_spec _ _ _).1
  · exact (decideTotalDuration_spec _ _ _).2

/-- Witness for `total_duration_policy` on a one-scene list. -/
theorem total_duration_policy_witness :
    ∃ r, render_from_scenes posterFs (mediaDurFam 10 4 2) "tmp" [normalScene 4] = .ok r ∧
      r.total_duration =
        (if r.silent_segment_path.isSome then r.video_duration else r.voice_duration) ∧
      (r.mismatch_warning = true ↔
        r.silent_segment_path.isSome = false ∧
          1 < |r.video_duration - r.voice_duration|) :=
  total_duration_policy posterFs (mediaDurFam 10 4 2) "tmp" [normalScene 4] (by simp)

/-- An image-to-video command always loops its still source. -/
theorem cmdHasLoop_image (p o : String) (d : ℚ) (kb : Bool) :
    cmdHasLoopDirective (createVideoFromImageCmd p o d kb) = true := by
  cases kb <;> with_unfolding_all rfl

/-- An image-to-video command trims to its `duration` argument. -/
theorem cmdTrimLimit_image (p o : String) (d : ℚ) (kb : Bool) :
    cmdTrimLimit (createVideoFromImageCmd p o d kb) = some d := by
  cases kb <;> rfl

/-- Modelled output duration of an image-to-video command: the loop plus the
`-t` trim force exactly the requested duration, whatever the source. -/
theorem ffmpegOutputDuration_image (p o : String) (d : ℚ) (kb : Bool) (src : ℚ) :
    ffmpegOutputDuration (createVideoFromImageCmd p o d kb) src = d := by
  simp [ffmpegOutputDuration, cmdTrimLimit_image, cmdHasLoop_image]

set_option maxRecDepth 8000 in
/-- C4 counterexample: on a script whose second scene is the poster-backed
ending scene, `render_from_scenes` builds that scene's video with
`add_ken_burns = True` — the Ken-Burns zoom is NOT suppressed (its command
carries a `zoompan` filter); only the appended 1 s silent tail is static. -/
theorem ending_scene_kenburns_counterexample :
    render_from_scenes posterFs (mediaDurFam 10 4 2) "tmp" [normalScene 4, endingScene 2]
      = .ok ⟨[⟨"poster.jpg", "tmp/poster_video_1.mp4", 2, true⟩,
              ⟨"poster.jpg", "tmp/silent_poster_segment.mp4", 1, false⟩],
             [("v0.mp4", 10), ("tmp/poster_video_1.mp4", 2),
              ("tmp/silent_poster_segment.mp4", 1)],
             ["a0.wav", "ea.wav"], [4, 2, 1],
             some "tmp/silent_poster_segment.mp4", [4, 2, 1], 7, 6, 7, false⟩ ∧
    (∃ s, Tok.str s ∈ createVideoFromImageCmd "poster.jpg" "tmp/poster_video_1.mp4" 2 true ∧
      strContainsSub s "zoompan" = true) := by
  constructor
  · with_unfolding_all rfl
  · refine ⟨"loop=loop=-1:size=1:start=0,scale=1188:2112:force_original_aspect_ratio=increase,crop=1080:1920,zoompan=z=\x271+0.05*on/60\x27:x=\x27iw/2-(iw/zoom/2)\x27:y=\x27ih/2-(ih/zoom/2)\x27:d=60:s=1080x1920:fps=30,setsar=1", ?_, ?_⟩
    · with_unfolding_all decide
    · with_unfolding_all decide

/-- C4 (amended): when a poster-backed ending scene exists, its poster video
is generated WITH the Ken-Burns zoom; what is static is only the appended,
fixed-length (1 s) silent tail, which extends the video track past the
narration track, and the total render duration is the video-track duration. -/
theorem ending_scene_zoom_and_silent_tail (d0 d1 s0 : ℚ) (hs : d0 ≤ s0) :
    ∃ r, render_from_scenes posterFs (mediaDurFam s0 d0 d1) "tmp"
        [normalScene d0, endingScene d1] = .ok r ∧
      r.image_calls = [⟨"poster.jpg", "tmp/poster_video_1.mp4", d1, true⟩,
        ⟨"poster.jpg", "tmp/silent_poster_segment.mp4", SILENT_POSTER_DURATION, false⟩] ∧
      r.silent_segment_path = some "tmp/silent_poster_segment.mp4" ∧
      r.audio_entries = ["a0.wav", "ea.wav"] ∧
      r.audio_durations = [d0, d1, SILENT_POSTER_DURATION] ∧
      r.voice_duration = d0 + d1 ∧
      r.video_duration = d0 + d1 + 1 ∧
      r.total_duration = r.video_duration ∧
      r.voice_duration < r.video_duration := by
  have hrun : render_from_scenes posterFs (mediaDurFam s0 d0 d1) "tmp"
      [normalScene d0, endingScene d1]
      = .ok ⟨[⟨"poster.jpg", "tmp/poster_video_1.mp4", d1, true⟩,
              ⟨"poster.jpg", "tmp/silent_poster_segment.mp4", 1, false⟩],
             [("v0.mp4", s0), ("tmp/poster_video_1.mp4", d1),
              ("tmp/silent_poster_segment.mp4", 1)],
             ["a0.wav", "ea.wav"], [d0, d1, 1],
             some "tmp/silent_poster_segment.mp4",
             [min s0 d0, min d1 d1, min 1 1],
             min s0 d0 + (min d1 d1 + (min 1 1 + 0)),
             d0 + (d1 + 0),
             min s0 d0 + (min d1 d1 + (min 1 1 + 0)), false⟩ := by
    with_unfolding_all rfl
  refine ⟨_, hrun, rfl, rfl, rfl, rfl, by simp, ?_, rfl, ?_⟩
  · show min s0 d0 + (min d1 d1 + (min 1 1 + 0)) = d0 + d1 + 1
    rw [min_eq_right hs, min_self, min_self]
    ring
  · show d0 + (d1 + 0) < min s0 d0 + (min d1 d1 + (min 1 1 + 0))
    rw [min_eq_right hs, min_self, min_self]
    linarith

/-- Witness for `ending_scene_zoom_and_silent_tail` at concrete durations. -/
theorem ending_scene_zoom_and_silent_tail_witness :
    ∃ r, render_from_scenes posterFs (mediaDurFam 10 4 2) "tmp"
        [normalScene 4, endingScene 2] = .ok r ∧
      r.image_calls = [⟨"poster.jpg", "tmp/poster_video_1.mp4", 2, true⟩,
        ⟨"poster.jpg", "tmp/silent_poster_segment.mp4", SILENT_POSTER_DURATION, false⟩] ∧
      r.silent_segment_path = some "tmp/silent_poster_segment.mp4" ∧
      r.audio_entries = ["a0.wav", "ea.wav"] ∧
      r.audio_durations = [(4 : ℚ), 2, SILENT_POSTER_DURATION] ∧
      r.voice_duration = 4 + 2 ∧
      r.video_duration = 4 + 2 + 1 ∧
      r.total_duration = r.video_duration ∧
      r.voice_duration < r.video_duration :=
  ending_scene_zoom_and_silent_tail 4 2 10 (by norm_num)

/-- Unfolding equation for `nondecStarts` on two or more words. -/
theorem nondecStarts_cons₂ (a b : Word) (t : List Word) :
    nondecStarts (a :: b :: t) = (decide (a.start ≤ b.start) && nondecStarts (b :: t)) :=
  rfl

/-- Shifting every word by the same offset preserves `nondecStarts`. -/
theorem nondecStarts_map_shift (c : ℚ) (l : List Word) :
    nondecStarts (l.map fun w => ⟨w.word, w.start + c, w.stop + c⟩) = nondecStarts l := by
  induction l with
  | nil => rfl
  | cons a t ih =>
    cases t with
    | nil => rfl
    | cons b t2 =>
      simp only [List.map_cons] at ih ⊢
      rw [nondecStarts_cons₂, nondecStarts_cons₂, ih]
      congr 1
      exact decide_eq_decide.mpr (add_le_add_iff_right c)

/-- Concatenation of two non-decreasing word lists separated by a bound is
non-decreasing. -/
theorem nondecStarts_append {l1 l2 : List Word} {B : ℚ}
    (h1 : nondecStarts l1 = true) (h2 : nondecStarts l2 = true)
    (hb1 : ∀ w ∈ l1, w.start ≤ B) (hb2 : ∀ w ∈ l2, B ≤ w.start) :
    nondecStarts (l1 ++ l2) = true := by
  induction l1 with
  | nil => simpa using h2
  | cons a t ih =>
    cases t with
    | nil =>
      cases l2 with
      | nil => rfl
      | cons b t2 =>
        have hab : a.start ≤ b.start :=
          le_trans (hb1 a (by simp)) (hb2 b (by simp))
        simpa [nondecStarts_cons₂, hab] using h2
    | cons x t2 =>
      rw [List.cons_append, List.cons_append, nondecStarts_cons₂]
      rw [nondecStarts_cons₂] at h1
      simp only [Bool.and_eq_true, decide_eq_true_eq] at h1 ⊢
      refine ⟨h1.1, ?_⟩
      have := ih h1.2 (fun w hw => hb1 w (List.mem_cons_of_mem _ hw))
      simpa [List.cons_append] using this

/-- The per-segment word maps flatten to a map over `localWords`. -/
theorem flatMap_words_map (segs : List Segment) (f : Word → Word) :
    (segs.flatMap fun seg => seg.words.map f) = (localWords segs).map f := by
  induction segs with
  | nil => rfl
  | cons s t ih => simp [localWords, List.flatMap_cons, ih]

/-- Strengthened induction for the step-3 loop: with fresh assets, non-negative
durations and scene-local words that are sorted and within `[0, duration]`,
the aggregated word list is non-decreasing and bounded below by the offset. -/
theorem step3Loop_nondec_aux (env : Env) (assets : List SceneAssets) :
    ∀ off : ℚ,
      (∀ a ∈ assets, a.word_timestamps = none) →
      (∀ a ∈ assets, 0 ≤ a.audio_duration) →
      (∀ a ∈ assets, ∀ segs, env.transcribe a.audio_path = .ok segs →
        nondecStarts (localWords segs) = true ∧
        ∀ w ∈ localWords segs, 0 ≤ w.start ∧ w.start ≤ a.audio_duration) →
      nondecStarts (aggregatedWords (step3Loop env assets off).2.1) = true ∧
      ∀ w ∈ aggregatedWords (step3Loop env assets off).2.1, off ≤ w.start := by
  induction assets with
  | nil =>
    intro off _ _ _
    exact ⟨rfl, by simp [aggregatedWords, step3Loop]⟩
  | cons a rest ih =>
    intro off hwt hdur hloc
    have hwta : a.word_timestamps = none := hwt a (by simp)
    have hda : 0 ≤ a.audio_duration := hdur a (by simp)
    cases htr : env.transcribe a.audio_path with
    | error e =>
      have ihr := ih off (fun x hx => hwt x (by simp [hx]))
        (fun x hx => hdur x (by simp [hx])) (fun x hx => hloc x (by simp [hx]))
      simpa [step3Loop, htr, aggregatedWords, hwta] using ihr
    | ok segs =>
      obtain ⟨hnd, hbounds⟩ := hloc a (by simp) segs htr
      have ihr := ih (off + a.audio_duration) (fun x hx => hwt x (by simp [hx]))
        (fun x hx => hdur x (by simp [hx])) (fun x hx => hloc x (by simp [hx]))
      have hflat : (segs.flatMap fun seg => seg.words.map fun w =>
          (⟨w.word, w.start + off, w.stop + off⟩ : Word))
          = (localWords segs).map fun w => ⟨w.word, w.start + off, w.stop + off⟩ :=
        flatMap_words_map segs _
      simp only [step3Loop, htr, aggregatedWords, List.flatMap_cons, Option.getD_some,
        hflat] at ihr ⊢
      constructor
      · refine nondecStarts_append (B := off + a.audio_duration) ?_ ihr.1 ?_ ihr.2
        · rw [nondecStarts_map_shift]
          exact hnd
        · intro w hw
          simp only [List.mem_map] at hw
          obtain ⟨v, hv, rfl⟩ := hw
          have := (hbounds v hv).2
          simpa [add_comm] using add_le_add_right this off
      · intro w hw
        rcases List.mem_append.mp hw with hw | hw
        · simp only [List.mem_map] at hw
          obtain ⟨v, hv, rfl⟩ := hw
          have h0 := (hbounds v hv).1
          show off ≤ v.start + off
          linarith
        · exact le_trans (by linarith) (ihr.2 w hw)

/-- C3: global word-timestamp start times are monotonically non-decreasing
across the full ordered scene sequence — for every pair of consecutive words
in the aggregated re-based word list, the later start is at least the earlier
one — given that each scene's transcription returns words sorted by start and
lying within `[0, audio_duration]`. -/
theorem global_word_starts_nondecreasing (env : Env) (assets : List SceneAssets)
    (hwt : ∀ a ∈ assets, a.word_timestamps = none)
    (hdur : ∀ a ∈ assets, 0 ≤ a.audio_duration)
    (hloc : ∀ a ∈ assets, ∀ segs, env.transcribe a.audio_path = .ok segs →
      nondecStarts (localWords segs) = true ∧
      ∀ w ∈ localWords segs, 0 ≤ w.start ∧ w.start ≤ a.audio_duration) :
    nondecStarts (aggregatedWords (step3Loop env assets 0).2.1) = true :=
  (step3Loop_nondec_aux env assets 0 hwt hdur hloc).1

/-- Witness for `global_word_starts_nondecreasing` on two concrete scenes. -/
theorem global_word_starts_nondecreasing_witness :
    nondecStarts (aggregatedWords
      (step3Loop envBothOk [normalScene 4, secondScene 3] 0).2.1) = true := by
  refine global_word_starts_nondecreasing envBothOk [normalScene 4, secondScene 3]
    ?_ ?_ ?_
  · intro a ha
    simp only [List.mem_cons, List.not_mem_nil, or_false] at ha
    rcases ha with rfl | rfl <;> rfl
  · intro a ha
    simp only [List.mem_cons, List.not_mem_nil, or_false] at ha
    rcases ha with rfl | rfl <;> with_unfolding_all decide
  · intro a ha segs hsegs
    simp only [List.mem_cons, List.not_mem_nil, or_false] at ha
    rcases ha with rfl | rfl
    · rw [show envBothOk.transcribe (normalScene 4).audio_path
          = .ok [⟨"s0", 0, 4, [⟨"w1", 0, 1/2⟩, ⟨"w2", 7/2, 4⟩]⟩] from by
            with_unfolding_all rfl] at hsegs
      injection hsegs with h
      subst h
      refine ⟨by with_unfolding_all decide, ?_⟩
      intro w hw
      simp only [localWords, List.flatMap_cons, List.flatMap_nil, List.append_nil,
        List.mem_cons, List.not_mem_nil, or_false] at hw
      rcases hw with rfl | rfl <;>
        exact ⟨by with_unfolding_all decide, by with_unfolding_all decide⟩
    · rw [show envBothOk.transcribe (secondScene 3).audio_path
          = .ok [⟨"s1", 0, 1, [⟨"w3", 1/10, 1⟩]⟩] from by
            with_unfolding_all rfl] at hsegs
      injection hsegs with h
      subst h
      refine ⟨by with_unfolding_all decide, ?_⟩
      intro w hw
      simp only [localWords, List.flatMap_cons, List.flatMap_nil, List.append_nil,
        List.mem_cons, List.not_mem_nil, or_false] at hw
      rcases hw with rfl
      exact ⟨by with_unfolding_all decide, by with_unfolding_all decide⟩

/-- Steps 4-5 perform at most one cache save, never offline, and only when the
render succeeded (final path present). -/
theorem step45_cache_spec (offline : Bool) (env : Env) (name : String)
    (script : VideoScript) (assets : List SceneAssets)
    (segs : List Segment) (cd : CacheData) :
    (step45 offline env name script assets segs cd).cache_saves.length ≤ 1 ∧
    (offline = true → (step45 offline env name script assets segs cd).cache_saves = []) ∧
    ((step45 offline env name script assets segs cd).final_video_path = none →
      (step45 offline env name script assets segs cd).cache_saves = []) ∧
    ((step45 offline env name script assets segs cd).cache_saves ≠ [] →
      offline = false ∧
      (step45 offline env name script assets segs cd).final_video_path ≠ none) := by
  cases hsub : generateKaraokeSubtitles segs 4 <;>
    by_cases hff : env.check_ffmpeg <;>
      cases hr : env.render <;>
        cases offline <;>
          simp [step45, hsub, hff, hr]

/-- C7: the cache is written at most once per run, only at the very end of a
successful online run: offline runs never save, and any run whose final video
path is `none` (a failure before or at the final render) performs no save. -/
theorem cache_write_once_on_success (offline : Bool) (env : Env)
    (cache : Option CacheData) (name : String) :
    (run offline env cache name).cache_saves.length ≤ 1 ∧
    (offline = true → (run offline env cache name).cache_saves = []) ∧
    ((run offline env cache name).final_video_path = none →
      (run offline env cache name).cache_saves = []) ∧
    ((run offline env cache name).cache_saves ≠ [] →
      offline = false ∧ (run offline env cache name).final_video_path ≠ none) := by
  unfold run runTail
  repeat' split
  all_goals try simp
  all_goals split
  all_goals first
    | exact ⟨(step45_cache_spec _ _ _ _ _ _ _).1, (step45_cache_spec _ _ _ _ _ _ _).2.1,
        (step45_cache_spec _ _ _ _ _ _ _).2.2.1, (step45_cache_spec _ _ _ _ _ _ _).2.2.2⟩
    | simp

/-- Witness for `cache_write_once_on_success`: an offline run saves nothing. -/
theorem cache_write_once_on_success_witness :
    (run true baseEnv none "M").cache_saves = [] :=
  (cache_write_once_on_success true baseEnv none "M").2.1 rfl

/-- Online step-2 assets are exactly the successfully processed scenes, in
script order. -/
theorem step2Loop_online_assets (env : Env) (total : Nat) :
    ∀ (scenes : List Scene) (cd : CacheData),
      (step2Loop false env total scenes cd).2.1
        = scenes.filterMap fun sc =>
            match processSceneParallel (env.tts sc.scene_index)
                (env.fetch_video sc.scene_index) with
            | .ok r =>
              some { index := sc.scene_index, narration := sc.narration,
                     visual_queries := sc.visual_queries, audio_path := r.audio_path,
                     audio_duration := r.audio_duration, video_path := r.video_path,
                     video_metadata := r.video_metadata }
            | .error _ => none := by
  intro scenes
  induction scenes with
  | nil => intro cd; rfl
  | cons sc rest ih =>
    intro cd
    cases hp : processSceneParallel (env.tts sc.scene_index)
        (env.fetch_video sc.scene_index) with
    | error e => simp [step2Loop, hp, ih, List.filterMap_cons]
    | ok r => simp [step2Loop, hp, ih, List.filterMap_cons]

/-- A failing scene produces its error-flagged step-2 event. -/
theorem step2Loop_online_error_event (env : Env) (total : Nat) :
    ∀ (scenes : List Scene) (cd : CacheData) (sc : Scene) (e : String),
      sc ∈ scenes →
      processSceneParallel (env.tts sc.scene_index) (env.fetch_video sc.scene_index)
        = .error e →
      mkStatus 2 ("Failed to process scene " ++ toString sc.scene_index ++ ": " ++ e) true
        ∈ (step2Loop false env total scenes cd).1 := by
  intro scenes
  induction scenes with
  | nil => intro cd sc e h; simp at h
  | cons x rest ih =>
    intro cd sc e hmem hp
    simp only [List.mem_cons] at hmem
    cases hx : processSceneParallel (env.tts x.scene_index)
        (env.fetch_video x.scene_index) with
    | error e2 =>
      rcases hmem with rfl | hmem
      · have he : e = e2 := by
          have h2 := hp.symm.trans hx
          exact (Except.error.injEq _ _).mp h2
        subst he
        simp [step2Loop, hx]
      · simp only [step2Loop, hx, List.mem_cons]
        right; right
        exact ih cd sc e hmem hp
    | ok r =>
      rcases hmem with rfl | hmem
      · exact absurd (hp.symm.trans hx) (by simp)
      · simp only [step2Loop, hx, List.mem_cons]
        right
        exact ih _ sc e hmem hp

/-- The step-3 loop only attaches word timestamps: the non-ending index
projection of the asset list is unchanged. -/
theorem step3Loop_filterMap_index (env : Env) :
    ∀ (l : List SceneAssets) (off : ℚ),
      ((step3Loop env l off).2.1).filterMap
          (fun a => if a.is_ending_scene then none else some a.index)
        = l.filterMap fun a => if a.is_ending_scene then none else some a.index := by
  intro l
  induction l with
  | nil => intro off; rfl
  | cons a rest ih =>
    intro off
    cases htr : env.transcribe a.audio_path with
    | ok segs =>
      cases hend : a.is_ending_scene <;>
        simp [step3Loop, htr, ih, List.filterMap_cons, hend]
    | error e =>
      cases hend : a.is_ending_scene <;>
        simp [step3Loop, htr, ih, List.filterMap_cons, hend]

/-- The ending stage appends at most one asset, flagged `is_ending_scene`, so
the non-ending index projection is unchanged. -/
theorem stage25Ending_filterMap_index (offline : Bool) (env : Env)
    (title year : String) (poster : Option String) (od voice mood : String)
    (assets : List SceneAssets) (cd : CacheData) :
    ((stage25Ending offline env title year poster od voice mood assets cd).2.1).filterMap
        (fun a => if a.is_ending_scene then none else some a.index)
      = assets.filterMap fun a => if a.is_ending_scene then none else some a.index := by
  unfold stage25Ending
  repeat' split
  all_goals simp

/-- Steps 4-5 return the asset list they were given. -/
theorem step45_scene_assets (offline : Bool) (env : Env) (name : String)
    (script : VideoScript) (assets : List SceneAssets)
    (segs : List Segment) (cd : CacheData) :
    (step45 offline env name script assets segs cd).scene_assets = assets := by
  cases hsub : generateKaraokeSubtitles segs 4 <;>
    by_cases hff : env.check_ffmpeg <;>
      cases hr : env.render <;>
        simp [step45, hsub, hff, hr]

/-- Step-1 movie-details acquisition in a successful online run. -/
theorem stage1Details_online (env : Env) (cache : Option CacheData)
    (name s : String) (md : MovieDetails)
    (hs : env.search_movie = some s) (hd : env.movie_details = some md) :
    stage1Details false env cache name
      = ([mkStatus 1 ("Searching for movie: \x27" ++ name ++ "\x27...")],
         some (md, { movie_details := some md })) := by
  simp [stage1Details, hs, hd]

/-- An online run that finds a movie with a plot and obtains a script always
reaches scene processing: it is a `runTail` invocation for that script. -/
theorem run_online_reaches_step2 (env : Env) (cache : Option CacheData)
    (name s : String) (md : MovieDetails) (script : VideoScript)
    (hs : env.search_movie = some s) (hd : env.movie_details = some md)
    (hp : md.plot ≠ "") (hg : env.generate_script = .ok script) :
    ∃ md2 pl cd eh, run false env cache name
      = runTail false env name md2 pl script cd eh := by
  unfold run
  rw [stage1Details_online env cache name s md hs hd]
  dsimp only
  rw [if_neg hp]
  simp only [Bool.false_eq_true, if_false, hg]
  exact ⟨_, _, _, _, rfl⟩

/-- Scene-failure behaviour of the online scene-processing tail. -/
theorem runTail_online_spec (env : Env) (name : String) (md : MovieDetails)
    (pl : Option String) (script : VideoScript) (cd : CacheData)
    (eh : List PipelineStatus) :
    (∀ sc ∈ script.scenes, ∀ e,
      processSceneParallel (env.tts sc.scene_index) (env.fetch_video sc.scene_index)
        = .error e →
      mkStatus 2 ("Failed to process scene " ++ toString sc.scene_index ++ ": " ++ e) true
        ∈ (runTail false env name md pl script cd eh).events) ∧
    ((runTail false env name md pl script cd eh).scene_assets.filterMap
        (fun a => if a.is_ending_scene then none else some a.index)
      = script.scenes.filterMap fun sc =>
          match processSceneParallel (env.tts sc.scene_index)
              (env.fetch_video sc.scene_index) with
          | .ok _ => some sc.scene_index
          | .error _ => none) ∧
    ((∀ sc ∈ script.scenes, ∃ e,
        processSceneParallel (env.tts sc.scene_index) (env.fetch_video sc.scene_index)
          = .error e) →
      (runTail false env name md pl script cd eh).final_video_path = none ∧
      mkStatus 2 "No scenes were processed successfully." true
        ∈ (runTail false env name md pl script cd eh).events) := by
  have hA := step2Loop_online_assets env script.scenes.length script.scenes cd
  have hev := step2Loop_online_error_event env script.scenes.length script.scenes cd
  unfold runTail
  rcases h2 : step2Loop false env script.scenes.length script.scenes cd with
    ⟨ev6, assets2, cd2⟩
  rw [h2] at hA hev
  dsimp only at hA hev
  dsimp only
  by_cases hempty : assets2 = []
  · rw [if_pos (by simp [hempty])]
    refine ⟨?_, ?_, ?_⟩
    · intro sc hsc e he
      have hmem := hev sc e hsc he
      simp only [List.mem_append]
      tauto
    · dsimp only
      rw [hempty]
      simp only [List.filterMap_nil]
      have hnil : script.scenes.filterMap _ = ([] : List SceneAssets) :=
        hA.symm.trans hempty
      have hall := List.filterMap_eq_nil_iff.mp hnil
      symm
      rw [List.filterMap_eq_nil_iff]
      intro sc hsc
      have hnone := hall sc hsc
      cases hx : processSceneParallel (env.tts sc.scene_index)
          (env.fetch_video sc.scene_index) with
      | ok r => rw [hx] at hnone; simp at hnone
      | error e => simp
    · intro _
      refine ⟨rfl, ?_⟩
      simp only [List.mem_append]
      simp
  · rw [if_neg (by simp [hempty])]
    dsimp only
    rcases h8 : stage25Ending false env md.title md.year pl (getOutputDir name)
        script.selected_voice_id script.overall_mood assets2 cd2 with
      ⟨ev8, assetsE, cdE⟩
    dsimp only
    rcases h10 : step3Loop env assetsE 0 with ⟨ev10, assetsT, segsT, offT⟩
    dsimp only
    refine ⟨?_, ?_, ?_⟩
    · intro sc hsc e he
      have hmem := hev sc e hsc he
      simp only [List.mem_append]
      tauto
    · have hT := step3Loop_filterMap_index env assetsE 0
      rw [h10] at hT
      dsimp only at hT
      have hE := stage25Ending_filterMap_index false env md.title md.year pl
        (getOutputDir name) script.selected_voice_id script.overall_mood assets2 cd2
      rw [h8] at hE
      dsimp only at hE
      rw [step45_scene_assets, hT, hE, hA, List.filterMap_filterMap]
      refine List.filterMap_congr ?_
      intro sc _
      cases hx : processSceneParallel (env.tts sc.scene_index)
          (env.fetch_video sc.scene_index) <;> simp
    · intro hall
      exfalso
      apply hempty
      rw [hA, List.filterMap_eq_nil_iff]
      intro sc hsc
      obtain ⟨e, he⟩ := hall sc hsc
      rw [he]

/-- C8: in an online run that reaches scene processing, a scene whose TTS or
footage fetch raises is dropped (an error-flagged event is emitted) while the
remaining scenes proceed: the non-ending assets of the result are exactly the
successful scenes in script order; and when every scene fails, the run ends
with the "No scenes were processed successfully." error event and a `none`
final video path. -/
theorem scene_failures_dropped_run_continues (env : Env)
    (cache : Option CacheData) (name s : String) (md : MovieDetails)
    (script : VideoScript)
    (hs : env.search_movie = some s) (hd : env.movie_details = some md)
    (hp : md.plot ≠ "") (hg : env.generate_script = .ok script) :
    (∀ sc ∈ script.scenes, ∀ e,
      processSceneParallel (env.tts sc.scene_index) (env.fetch_video sc.scene_index)
        = .error e →
      mkStatus 2 ("Failed to process scene " ++ toString sc.scene_index ++ ": " ++ e) true
        ∈ (run false env cache name).events) ∧
    ((run false env cache name).scene_assets.filterMap
        (fun a => if a.is_ending_scene then none else some a.index)
      = script.scenes.filterMap fun sc =>
          match processSceneParallel (env.tts sc.scene_index)
              (env.fetch_video sc.scene_index) with
          | .ok _ => some sc.scene_index
          | .error _ => none) ∧
    ((∀ sc ∈ script.scenes, ∃ e,
        processSceneParallel (env.tts sc.scene_index) (env.fetch_video sc.scene_index)
          = .error e) →
      (run false env cache name).final_video_path = none ∧
      mkStatus 2 "No scenes were processed successfully." true
        ∈ (run false env cache name).events) := by
  obtain ⟨md2, pl, cd, eh, hrun⟩ :=
    run_online_reaches_step2 env cache name s md script hs hd hp hg
  rw [hrun]
  exact runTail_online_spec env name md2 pl script cd eh

/-- Witness for `scene_failures_dropped_run_continues`: a concrete online run
in which scene 0's TTS raises and scene 1 succeeds. -/
theorem scene_failures_dropped_run_continues_witness :
    (∀ sc ∈ scriptFix.scenes, ∀ e,
      processSceneParallel (envTtsFail.tts sc.scene_index)
          (envTtsFail.fetch_video sc.scene_index) = .error e →
      mkStatus 2 ("Failed to process scene " ++ toString sc.scene_index ++ ": " ++ e) true
        ∈ (run false envTtsFail none "M").events) ∧
    ((run false envTtsFail none "M").scene_assets.filterMap
        (fun a => if a.is_ending_scene then none else some a.index)
      = scriptFix.scenes.filterMap fun sc =>
          match processSceneParallel (envTtsFail.tts sc.scene_index)
              (envTtsFail.fetch_video sc.scene_index) with
          | .ok _ => some sc.scene_index
          | .error _ => none) ∧
    ((∀ sc ∈ scriptFix.scenes, ∃ e,
        processSceneParallel (envTtsFail.tts sc.scene_index)
          (envTtsFail.fetch_video sc.scene_index) = .error e) →
      (run false envTtsFail none "M").final_video_path = none ∧
      mkStatus 2 "No scenes were processed successfully." true
        ∈ (run false envTtsFail none "M").events) :=
  scene_failures_dropped_run_continues envTtsFail none "M" "m" mdFix scriptFix
    rfl rfl (by decide) rfl

/-- C9 counterexample: an offline run whose cache lacks the entry for scene 1
(but has details, script and a valid scene-0 entry) is NOT aborted: the scene
is dropped with an error event and the run completes with a final video. -/
theorem offline_missing_scene_entry_not_fatal :
    (run true envOffline (some cacheMissingScene1) "M").final_video_path
      = some "output/final/M.mp4" ∧
    mkStatus 2 "No cached data for scene 1" true
      ∈ (run true envOffline (some cacheMissingScene1) "M").events ∧
    (run true envOffline (some cacheMissingScene1) "M").scene_assets.map
      (fun a => a.index) = [0] := by
  refine ⟨?_, ?_, ?_⟩ <;> with_unfolding_all decide

/-- Offline step-2 assets are exactly the scenes whose cache entries exist and
whose recorded files are still on disk; the cache document is not modified. -/
theorem step2Loop_offline_assets (env : Env) (total : Nat) :
    ∀ (scenes : List Scene) (cd : CacheData),
      (step2Loop true env total scenes cd).2.1
        = scenes.filterMap fun sc =>
            match cd.lookupScene sc.scene_index with
            | none => none
            | some c =>
              if env.file_exists c.audio_path && env.file_exists c.video_path then
                some { index := sc.scene_index, narration := sc.narration,
                       visual_queries := sc.visual_queries, audio_path := c.audio_path,
                       audio_duration := c.audio_duration, video_path := c.video_path,
                       video_metadata := c.video_metadata }
              else none := by
  intro scenes
  induction scenes with
  | nil => intro cd; rfl
  | cons sc rest ih =>
    intro cd
    cases hl : cd.lookupScene sc.scene_index with
    | none => simp [step2Loop, hl, ih, List.filterMap_cons]
    | some c =>
      by_cases hf : env.file_exists c.audio_path && env.file_exists c.video_path <;>
        · simp only [Bool.and_eq_true] at hf
          simp [step2Loop, hl, hf, ih, List.filterMap_cons, Bool.and_eq_true]

/-- A scene with no cache entry yields its offline error event. -/
theorem step2Loop_offline_missing_event (env : Env) (total : Nat) :
    ∀ (scenes : List Scene) (cd : CacheData) (sc : Scene),
      sc ∈ scenes → cd.lookupScene sc.scene_index = none →
      mkStatus 2 ("No cached data for scene " ++ toString sc.scene_index) true
        ∈ (step2Loop true env total scenes cd).1 := by
  intro scenes
  induction scenes with
  | nil => intro cd sc h; simp at h
  | cons x rest ih =>
    intro cd sc hmem hl
    simp only [List.mem_cons] at hmem
    rcases hmem with rfl | hmem
    · simp [step2Loop, hl]
    · cases hx : cd.lookupScene x.scene_index with
      | none =>
        simp only [step2Loop, hx, List.mem_cons]
        right; right
        exact ih cd sc hmem hl
      | some c =>
        by_cases hf : env.file_exists c.audio_path && env.file_exists c.video_path <;>
          · simp only [step2Loop, hx, hf, List.mem_cons, Bool.false_eq_true, if_false,
              if_true, reduceIte]
            right; right
            exact ih cd sc hmem hl

/-- A scene whose cached files are gone yields its offline error event. -/
theorem step2Loop_offline_stale_event (env : Env) (total : Nat) :
    ∀ (scenes : List Scene) (cd : CacheData) (sc : Scene) (c : SceneCacheEntry),
      sc ∈ scenes → cd.lookupScene sc.scene_index = some c →
      (env.file_exists c.audio_path && env.file_exists c.video_path) = false →
      mkStatus 2 ("Cached files not found for scene " ++ toString sc.scene_index) true
        ∈ (step2Loop true env total scenes cd).1 := by
  intro scenes
  induction scenes with
  | nil => intro cd sc c h; simp at h
  | cons x rest ih =>
    intro cd sc c hmem hl hf
    simp only [List.mem_cons] at hmem
    rcases hmem with rfl | hmem
    · simp [step2Loop, hl, hf]
    · cases hx : cd.lookupScene x.scene_index with
      | none =>
        simp only [step2Loop, hx, List.mem_cons]
        right; right
        exact ih cd sc c hmem hl hf
      | some c2 =>
        by_cases hf2 : env.file_exists c2.audio_path && env.file_exists c2.video_path <;>
          · simp only [step2Loop, hx, hf2, List.mem_cons, Bool.false_eq_true, if_false,
              if_true, reduceIte]
            right; right
            exact ih cd sc c hmem hl hf

/-- Step-1 movie-details acquisition in an offline run with a usable cache. -/
theorem stage1Details_offline (env : Env) (cd : CacheData) (name : String)
    (md : MovieDetails) (hmd : cd.movie_details = some md) :
    stage1Details true env (some cd) name
      = ([mkStatus 1 "Using cached movie details"], some (md, cd)) := by
  simp [stage1Details, hmd]

/-- An offline run whose cache has details, a plot and a script reaches scene
processing with the loaded cache document itself. -/
theorem run_offline_reaches_step2 (env : Env) (cd : CacheData) (name : String)
    (md : MovieDetails) (script : VideoScript)
    (hmd : cd.movie_details = some md) (hp : md.plot ≠ "")
    (hsc : cd.video_script = some script) :
    ∃ pl eh, run true env (some cd) name
      = runTail true env name md pl script cd eh := by
  unfold run
  rw [stage1Details_offline env cd name md hmd]
  dsimp only
  rw [if_neg hp]
  rw [show stage1Tmdb true env md cd = ([], md, cd) from by simp [stage1Tmdb]]
  dsimp only
  rcases h3 : stage1Poster true env md cd with ⟨ev3, pl0, cd3⟩
  have hcd3 : cd3 = cd := by
    have hpp : (stage1Poster true env md cd).2.2 = cd := by
      cases hopt : cd.poster_path <;> simp [stage1Poster, hopt]
    rw [h3] at hpp
    exact hpp
  subst hcd3
  dsimp only
  simp only [if_true, hsc]
  exact ⟨_, _, rfl⟩

/-- Offline behaviour of the scene-processing tail: missing or stale per-scene
entries drop the scene with an error event; the surviving assets are exactly
the file-valid cached scenes; the run is fatal only when none survive, and
proceeds to transcription otherwise. -/
theorem runTail_offline_spec (env : Env) (name : String) (md : MovieDetails)
    (pl : Option String) (script : VideoScript) (cd : CacheData)
    (eh : List PipelineStatus) :
    (∀ sc ∈ script.scenes, cd.lookupScene sc.scene_index = none →
      mkStatus 2 ("No cached data for scene " ++ toString sc.scene_index) true
        ∈ (runTail true env name md pl script cd eh).events) ∧
    (∀ sc ∈ script.scenes, ∀ c, cd.lookupScene sc.scene_index = some c →
      (env.file_exists c.audio_path && env.file_exists c.video_path) = false →
      mkStatus 2 ("Cached files not found for scene " ++ toString sc.scene_index) true
        ∈ (runTail true env name md pl script cd eh).events) ∧
    ((runTail true env name md pl script cd eh).scene_assets.filterMap
        (fun a => if a.is_ending_scene then none else some a.index)
      = script.scenes.filterMap fun sc =>
          match cd.lookupScene sc.scene_index with
          | none => none
          | some c =>
            if env.file_exists c.audio_path && env.file_exists c.video_path then
              some sc.scene_index
            else none) ∧
    ((∀ sc ∈ script.scenes, ∀ c, cd.lookupScene sc.scene_index = some c →
        (env.file_exists c.audio_path && env.file_exists c.video_path) = false) →
      (runTail true env name md pl script cd eh).final_video_path = none ∧
      mkStatus 2 "No scenes were processed successfully." true
        ∈ (runTail true env name md pl script cd eh).events) ∧
    ((runTail true env name md pl script cd eh).scene_assets ≠ [] →
      mkStatus 3 "Transcribing audio with Whisper for word timestamps..."
        ∈ (runTail true env name md pl script cd eh).events) := by
  have hA := step2Loop_offline_assets env script.scenes.length script.scenes cd
  have hevM := step2Loop_offline_missing_event env script.scenes.length script.scenes cd
  have hevS := step2Loop_offline_stale_event env script.scenes.length script.scenes cd
  unfold runTail
  rcases h2 : step2Loop true env script.scenes.length script.scenes cd with
    ⟨ev6, assets2, cd2⟩
  rw [h2] at hA hevM hevS
  dsimp only at hA hevM hevS
  dsimp only
  by_cases hempty : assets2 = []
  · rw [if_pos (by simp [hempty])]
    refine ⟨?_, ?_, ?_, ?_, ?_⟩
    · intro sc hsc hl
      have := hevM sc hsc hl
      simp only [List.mem_append]
      tauto
    · intro sc hsc c hl hf
      have := hevS sc c hsc hl hf
      simp only [List.mem_append]
      tauto
    · dsimp only
      rw [hempty]
      simp only [List.filterMap_nil]
      have hall := List.filterMap_eq_nil_iff.mp (hA.symm.trans hempty)
      symm
      rw [List.filterMap_eq_nil_iff]
      intro sc hsc
      have hnone := hall sc hsc
      cases hx : cd.lookupScene sc.scene_index with
      | none => simp
      | some c =>
        rw [hx] at hnone
        dsimp only at hnone
        by_cases hf : env.file_exists c.audio_path && env.file_exists c.video_path
        · rw [if_pos hf] at hnone
          simp at hnone
        · simp [hf]
    · intro _
      refine ⟨rfl, ?_⟩
      simp only [List.mem_append]
      simp
    · intro hne
      exfalso
      exact hne (by simp [hempty])
  · rw [if_neg (by simp [hempty])]
    dsimp only
    rcases h8 : stage25Ending true env md.title md.year pl (getOutputDir name)
        script.selected_voice_id script.overall_mood assets2 cd2 with
      ⟨ev8, assetsE, cdE⟩
    dsimp only
    rcases h10 : step3Loop env assetsE 0 with ⟨ev10, assetsT, segsT, offT⟩
    dsimp only
    refine ⟨?_, ?_, ?_, ?_, ?_⟩
    · intro sc hsc hl
      have := hevM sc hsc hl
      simp only [List.mem_append]
      tauto
    · intro sc hsc c hl hf
      have := hevS sc c hsc hl hf
      simp only [List.mem_append]
      tauto
    · have hT := step3Loop_filterMap_index env assetsE 0
      rw [h10] at hT
      dsimp only at hT
      have hE := stage25Ending_filterMap_index true env md.title md.year pl
        (getOutputDir name) script.selected_voice_id script.overall_mood assets2 cd2
      rw [h8] at hE
      dsimp only at hE
      rw [step45_scene_assets, hT, hE, hA, List.filterMap_filterMap]
      refine List.filterMap_congr ?_
      intro sc _
      cases hx : cd.lookupScene sc.scene_index with
      | none => simp
      | some c =>
        by_cases hf : env.file_exists c.audio_path && env.file_exists c.video_path <;>
          simp [hf]
    · intro hstale
      exfalso
      apply hempty
      rw [hA, List.filterMap_eq_nil_iff]
      intro sc hsc
      cases hx : cd.lookupScene sc.scene_index with
      | none => simp
      | some c =>
        have hb := hstale sc hsc c hx
        simp [hb]
    · intro _
      simp only [List.mem_append]
      simp

/-- Step-1 details acquisition offline never consults the environment. -/
theorem stage1Details_env (env1 env2 : Env) (c : Option CacheData) (n : String) :
    stage1Details true env1 c n = stage1Details true env2 c n := by
  cases c <;> rfl

/-- The TMDB top-up never runs offline. -/
theorem stage1Tmdb_offline_eq (env : Env) (md : MovieDetails) (cd : CacheData) :
    stage1Tmdb true env md cd = ([], md, cd) := rfl

/-- The offline poster stage only consults the filesystem. -/
theorem stage1Poster_env (env1 env2 : Env)
    (hfe : env1.file_exists = env2.file_exists) (md : MovieDetails) (cd : CacheData) :
    stage1Poster true env1 md cd = stage1Poster true env2 md cd := by
  cases hpp : cd.poster_path <;> simp [stage1Poster, hpp, hfe]

/-- The offline scene loop only consults the filesystem. -/
theorem step2Loop_offline_env (env1 env2 : Env)
    (hfe : env1.file_exists = env2.file_exists) (total : Nat) :
    ∀ (scenes : List Scene) (cd : CacheData),
      step2Loop true env1 total scenes cd = step2Loop true env2 total scenes cd := by
  intro scenes
  induction scenes with
  | nil => intro cd; rfl
  | cons sc rest ih =>
    intro cd
    cases hl : cd.lookupScene sc.scene_index with
    | none => simp [step2Loop, hl, ih]
    | some c => simp [step2Loop, hl, hfe, ih]

/-- The offline ending stage only consults the filesystem. -/
theorem stage25Ending_offline_env (env1 env2 : Env)
    (hfe : env1.file_exists = env2.file_exists) (title year : String)
    (pl : Option String) (od voice mood : String)
    (assets : List SceneAssets) (cd : CacheData) :
    stage25Ending true env1 title year pl od voice mood assets cd
      = stage25Ending true env2 title year pl od voice mood assets cd := by
  cases he : cd.ending_scene <;> simp [stage25Ending, he, hfe]

/-- The transcription loop only consults the transcriber. -/
theorem step3Loop_env (env1 env2 : Env)
    (htr : env1.transcribe = env2.transcribe) :
    ∀ (l : List SceneAssets) (off : ℚ), step3Loop env1 l off = step3Loop env2 l off := by
  intro l
  induction l with
  | nil => intro off; rfl
  | cons a rest ih =>
    intro off
    cases h : env2.transcribe a.audio_path <;> simp [step3Loop, htr, h, ih]

/-- Steps 4-5 only consult the filesystem, the ffmpeg check and the renderer. -/
theorem step45_env (offline : Bool) (env1 env2 : Env)
    (hfe : env1.file_exists = env2.file_exists)
    (hff : env1.check_ffmpeg = env2.check_ffmpeg)
    (hr : env1.render = env2.render) (name : String) (script : VideoScript)
    (assets : List SceneAssets) (segs : List Segment) (cd : CacheData) :
    step45 offline env1 name script assets segs cd
      = step45 offline env2 name script assets segs cd := by
  cases hsub : generateKaraokeSubtitles segs 4 <;>
    simp [step45, hsub, hfe, hff, hr]

/-- The offline scene-processing tail only consults the filesystem, the
transcriber, the ffmpeg check and the renderer. -/
theorem runTail_offline_env (env1 env2 : Env)
    (hfe : env1.file_exists = env2.file_exists)
    (htr : env1.transcribe = env2.transcribe)
    (hff : env1.check_ffmpeg = env2.check_ffmpeg)
    (hr : env1.render = env2.render) (name : String) (md : MovieDetails)
    (pl : Option String) (script : VideoScript) (cd : CacheData)
    (eh : List PipelineStatus) :
    runTail true env1 name md pl script cd eh
      = runTail true env2 name md pl script cd eh := by
  unfold runTail
  rw [step2Loop_offline_env env1 env2 hfe script.scenes.length script.scenes cd]
  rcases h2 : step2Loop true env2 script.scenes.length script.scenes cd with
    ⟨ev6, assets2, cd2⟩
  dsimp only
  by_cases he : assets2.isEmpty
  · simp [he]
  · simp only [he, Bool.false_eq_true, if_false]
    rw [stage25Ending_offline_env env1 env2 hfe md.title md.year pl
      (getOutputDir name) script.selected_voice_id script.overall_mood assets2 cd2]
    rcases h8 : stage25Ending true env2 md.title md.year pl (getOutputDir name)
        script.selected_voice_id script.overall_mood assets2 cd2 with ⟨ev8, aE, cdE⟩
    dsimp only
    rw [step3Loop_env env1 env2 htr aE 0]
    rcases h10 : step3Loop env2 aE 0 with ⟨ev10, aT, sT, oT⟩
    dsimp only
    rw [step45_env true env1 env2 hfe hff hr name script aT sT cdE]

/-- An offline run consults no network collaborator: its outcome depends only
on the filesystem, the local transcriber, the ffmpeg check and the renderer. -/
theorem run_offline_no_external_calls (env1 env2 : Env)
    (hfe : env1.file_exists = env2.file_exists)
    (htr : env1.transcribe = env2.transcribe)
    (hff : env1.check_ffmpeg = env2.check_ffmpeg)
    (hr : env1.render = env2.render)
    (c : Option CacheData) (name : String) :
    run true env1 c name = run true env2 c name := by
  unfold run
  rw [stage1Details_env env1 env2 c name]
  rcases hsd : stage1Details true env2 c name with ⟨ev1, r1⟩
  dsimp only
  cases r1 with
  | none => rfl
  | some pair =>
    obtain ⟨md, cd⟩ := pair
    dsimp only
    by_cases hp : md.plot = ""
    · simp [hp]
    · rw [if_neg hp, if_neg hp]
      rw [stage1Tmdb_offline_eq env1 md cd, stage1Tmdb_offline_eq env2 md cd]
      dsimp only
      rw [stage1Poster_env env1 env2 hfe md cd]
      rcases hpp : stage1Poster true env2 md cd with ⟨ev3, pl, cd3⟩
      dsimp only
      cases hvs : cd3.video_script with
      | none => rfl
      | some script =>
        dsimp only
        exact runTail_offline_env env1 env2 hfe htr hff hr name md pl script cd3 _

/-- The offline poster stage returns the cache document unchanged. -/
theorem stage1Poster_offline_cache (env : Env) (md : MovieDetails) (cd : CacheData) :
    (stage1Poster true env md cd).2.2 = cd := by
  cases hopt : cd.poster_path <;> simp [stage1Poster, hopt]

/-- C9 (amended): offline mode replaces the network collaborators with cache
lookups. A missing cache document, missing movie details, or a missing script
is fatal and aborts the run; a missing or stale per-scene entry only drops
that scene with an error event while the run continues (fatal only when no
scene survives); and the run's outcome is independent of every network-backed
collaborator. No failed lookup is retried. -/
theorem offline_cache_policy (env : Env) (name : String) :
    ((run true env none name).final_video_path = none ∧
      mkStatus 1 ("No cached data found for \x27" ++ name ++
        "\x27. Run without --offline first.") true
        ∈ (run true env none name).events) ∧
    (∀ cd : CacheData, cd.movie_details = none →
      (run true env (some cd) name).final_video_path = none ∧
      mkStatus 1 "No movie details in cache." true
        ∈ (run true env (some cd) name).events) ∧
    (∀ cd md, cd.movie_details = some md → md.plot ≠ "" →
      cd.video_script = none →
      (run true env (some cd) name).final_video_path = none ∧
      mkStatus 1 "No script data in cache." true
        ∈ (run true env (some cd) name).events) ∧
    (∀ cd md script, cd.movie_details = some md → md.plot ≠ "" →
      cd.video_script = some script →
      (∀ sc ∈ script.scenes, cd.lookupScene sc.scene_index = none →
        mkStatus 2 ("No cached data for scene " ++ toString sc.scene_index) true
          ∈ (run true env (some cd) name).events) ∧
      (∀ sc ∈ script.scenes, ∀ c, cd.lookupScene sc.scene_index = some c →
        (env.file_exists c.audio_path && env.file_exists c.video_path) = false →
        mkStatus 2 ("Cached files not found for scene " ++ toString sc.scene_index) true
          ∈ (run true env (some cd) name).events) ∧
      ((run true env (some cd) name).scene_assets.filterMap
          (fun a => if a.is_ending_scene then none else some a.index)
        = script.scenes.filterMap fun sc =>
            match cd.lookupScene sc.scene_index with
            | none => none
            | some c =>
              if env.file_exists c.audio_path && env.file_exists c.video_path then
                some sc.scene_index
              else none) ∧
      ((∀ sc ∈ script.scenes, ∀ c, cd.lookupScene sc.scene_index = some c →
          (env.file_exists c.audio_path && env.file_exists c.video_path) = false) →
        (run true env (some cd) name).final_video_path = none ∧
        mkStatus 2 "No scenes were processed successfully." true
          ∈ (run true env (some cd) name).events) ∧
      ((run true env (some cd) name).scene_assets ≠ [] →
        mkStatus 3 "Transcribing audio with Whisper for word timestamps..."
          ∈ (run true env (some cd) name).events)) ∧
    (∀ env2 : Env, env.file_exists = env2.file_exists →
      env.transcribe = env2.transcribe → env.check_ffmpeg = env2.check_ffmpeg →
      env.render = env2.render → ∀ c : Option CacheData,
      run true env c name = run true env2 c name) := by
  refine ⟨?_, ?_, ?_, ?_, ?_⟩
  · constructor
    · rfl
    · simp [run, stage1Details]
  · intro cd hmd
    constructor
    · simp [run, stage1Details, hmd]
    · simp [run, stage1Details, hmd]
  · intro cd md hmd hp hvs
    unfold run
    rw [stage1Details_offline env cd name md hmd]
    dsimp only
    rw [if_neg hp]
    rw [stage1Tmdb_offline_eq]
    dsimp only
    rcases h3 : stage1Poster true env md cd with ⟨ev3, pl0, cd3⟩
    have hcd3 : cd3 = cd := by
      have hpp := stage1Poster_offline_cache env md cd
      rw [h3] at hpp
      exact hpp
    subst hcd3
    dsimp only
    simp only [if_true, hvs]
    constructor
    · simp
    · simp
  · intro cd md script hmd hp hvs
    obtain ⟨pl, eh, hrun⟩ := run_offline_reaches_step2 env cd name md script hmd hp hvs
    rw [hrun]
    have hspec := runTail_offline_spec env name md pl script cd eh
    exact ⟨hspec.1, hspec.2.1, hspec.2.2.1, hspec.2.2.2.1, hspec.2.2.2.2⟩
  · intro env2 hfe htr hff hr c
    exact run_offline_no_external_calls env env2 hfe htr hff hr c name

/-- Witness for `offline_cache_policy`: an offline run against a cache with no
movie details aborts with the fatal step-1 event. -/
theorem offline_cache_policy_witness :
    (run true envOffline (some {}) "M").final_video_path = none ∧
    mkStatus 1 "No movie details in cache." true
      ∈ (run true envOffline (some {}) "M").events :=
  (offline_cache_policy envOffline "M").2.1 {} rfl

end StudioZero
